import Mathlib

/-!
Verification development for the `archipelago-rs` client library.

The repository implements a client for the Archipelago multiworld protocol:
a JSON-framed message protocol over a websocket transport.  We shallowly
embed the two source files:

* `src/protocol.rs` — the typed message model and its serde (de)serialization,
  modelled here at the level of parsed JSON values (`Json`).  `HashMap` fields
  are modelled as association lists (serialization writes entries in iteration
  order; deserialization rebuilds the map), `u8` as `Fin 256`, `i64` as `Int`,
  `f64` as `Float` (carried opaquely, never computed with).
* `src/client.rs` — the inbound demultiplexer (`MessageStream::poll_next`),
  the driving of it by `StreamExt::next`, and the handshake state machine
  (`AnonymousClient::new` / `AnonymousClient::connect`).  The websocket
  transport is modelled as a list of items (frames or transport errors);
  string-level JSON parsing is the serde library boundary, so a text frame
  carries its parsed root JSON value.  `uuid::Uuid::new_v4()` is
  nondeterministic and is modelled as an explicit parameter.
-/

namespace Archipelago

/-- Parsed JSON values (`serde_json::Value`).  Integer and floating numbers
are split into two constructors; objects are association lists in the order
serde would write them. -/
inductive Json where
  | null
  | bool (b : Bool)
  | num (n : Int)
  | float (f : Float)
  | str (s : String)
  | arr (elems : List Json)
  | obj (fields : List (String × Json))

/-- Look up a field of a JSON object field list (first occurrence). -/
def lookupField : List (String × Json) → String → Option Json
  | [], _ => none
  | (k, v) :: rest, key => if k = key then some v else lookupField rest key

/-- Look up a field of a JSON value; `none` when absent or not an object. -/
def Json.getField : Json → String → Option Json
  | .obj fields, key => lookupField fields key
  | _, _ => none

/-! ## Protocol value types (`src/protocol.rs`) -/

/-- Rust `NetworkVersion`: `{major, minor, build}` (i64 each). -/
structure NetworkVersion where
  major : Int
  minor : Int
  build : Int
deriving DecidableEq

/-- Rust `ItemsHandlingFlags(u8)`. -/
structure ItemsHandlingFlags where
  val : Fin 256
deriving DecidableEq

def ItemsHandlingFlags.CAN_RECEIVE_ITEMS : ItemsHandlingFlags := ⟨1⟩
def ItemsHandlingFlags.HAS_LOCAL_ITEMS : ItemsHandlingFlags := ⟨2⟩
def ItemsHandlingFlags.REQUEST_STARTING_INVENTORY : ItemsHandlingFlags := ⟨4⟩

/-- Rust `self.0 & Self::CAN_RECEIVE_ITEMS.0 != 0` -/
def ItemsHandlingFlags.can_receive_items (f : ItemsHandlingFlags) : Bool :=
  f.val.val &&& ItemsHandlingFlags.CAN_RECEIVE_ITEMS.val.val != 0

/-- Rust `self.can_receive_items() && self.0 & Self::HAS_LOCAL_ITEMS.0 != 0` -/
def ItemsHandlingFlags.has_local_items (f : ItemsHandlingFlags) : Bool :=
  f.can_receive_items && (f.val.val &&& ItemsHandlingFlags.HAS_LOCAL_ITEMS.val.val != 0)

/-- Rust `self.can_receive_items() && self.0 & Self::REQUEST_STARTING_INVENTORY.0 != 0` -/
def ItemsHandlingFlags.receive_starting_inventory (f : ItemsHandlingFlags) : Bool :=
  f.can_receive_items && (f.val.val &&& ItemsHandlingFlags.REQUEST_STARTING_INVENTORY.val.val != 0)

/-- Rust `impl BitOr for ItemsHandlingFlags` (bitwise or; stays inside u8). -/
def ItemsHandlingFlags.bitor (f g : ItemsHandlingFlags) : ItemsHandlingFlags :=
  ⟨⟨(f.val.val ||| g.val.val) % 256, Nat.mod_lt _ (by decide)⟩⟩

/-- Rust `NetworkItemFlags(u8)`. -/
structure NetworkItemFlags where
  val : Fin 256
deriving DecidableEq

def NetworkItemFlags.is_progression (f : NetworkItemFlags) : Bool :=
  f.val.val &&& 0b1 != 0

def NetworkItemFlags.is_important (f : NetworkItemFlags) : Bool :=
  f.val.val &&& 0b10 != 0

def NetworkItemFlags.is_trap (f : NetworkItemFlags) : Bool :=
  f.val.val &&& 0b100 != 0

/-- Rust `NetworkPlayer`. -/
structure NetworkPlayer where
  team : Int
  slot : Int
  «alias» : String
  name : String
deriving DecidableEq

/-- Rust `SlotType` (`serde_repr`, u8: 0, 1, 2). -/
inductive SlotType where
  | Spectator
  | Player
  | Group
deriving DecidableEq

/-- Rust `NetworkSlot`. -/
structure NetworkSlot where
  name : String
  game : String
  type : SlotType
  group_members : List Int
deriving DecidableEq

/-- Rust `NetworkItem`. -/
structure NetworkItem where
  item : Int
  location : Int
  player : Int
  flags : NetworkItemFlags
deriving DecidableEq

/-- Rust `PermissionName` (`rename_all = "snake_case"`). -/
inductive PermissionName where
  | Release
  | Collect
  | Remaining
deriving DecidableEq

/-- Rust `Permission` (`serde_repr`, u8: 0b000, 0b001, 0b010, 0b110, 0b111). -/
inductive Permission where
  | Disabled
  | Enabled
  | Goal
  | Auto
  | AutoEnabled
deriving DecidableEq

/-- Rust `RoomInfo`.  `password_required` carries `#[serde(rename = "password")]`;
the two per-game maps and `permissions` are `HashMap`s modelled as
association lists; `time` is an `f64`. -/
structure RoomInfo where
  version : NetworkVersion
  generator_version : NetworkVersion
  tags : List String
  password_required : Bool
  permissions : List (PermissionName × Permission)
  hint_cost : Int
  location_check_points : Int
  games : List String
  datapackage_versions : List (String × Int)
  datapackage_checksums : List (String × String)
  seed_name : String
  time : Float

/-- Rust `ConnectionRefusedError` (externally tagged unit variants). -/
inductive ConnectionRefusedError where
  | InvalidSlot
  | InvalidGame
  | IncompatibleVersion
  | InvalidPassword
  | InvalidItemsHandling
deriving DecidableEq

/-- Rust `ConnectionRefused`. -/
structure ConnectionRefused where
  errors : List ConnectionRefusedError
deriving DecidableEq

/-- Rust `Connected`.  `slot_data` and `slot_info` are string-keyed `HashMap`s
modelled as association lists; `slot_data` values are raw JSON. -/
structure Connected where
  team : Int
  slot : Int
  players : List NetworkPlayer
  missing_locations : List Int
  checked_locations : List Int
  slot_data : List (String × Json)
  slot_info : List (String × NetworkSlot)
  hint_points : Int

/-- Rust `ReceivedItems`. -/
structure ReceivedItems where
  index : Int
  items : List NetworkItem
deriving DecidableEq

/-- Rust `LocationInfo`. -/
structure LocationInfo where
  locations : List NetworkItem
deriving DecidableEq

/-- Rust `RoomUpdate` (currently an empty struct in the source). -/
structure RoomUpdate where
deriving DecidableEq

/-- Rust `JSONColor` (`rename_all = "snake_case"`). -/
inductive JSONColor where
  | Bold
  | Underline
  | Black
  | Red
  | Green
  | Yellow
  | Blue
  | Magenta
  | Cyan
  | White
  | BlackBg
  | RedBg
  | GreenBg
  | YellowBg
  | BlueBg
  | MagentaBg
  | CyanBg
  | WhiteBg
deriving DecidableEq

/-- Rust `JSONMessagePart` (`tag = "type"`, `rename_all = "snake_case"`, with an
`#[serde(untagged)]` final `Text` variant). -/
inductive JSONMessagePart where
  | PlayerId (text : String) (player : Int)
  | PlayerName (text : String)
  | ItemId (text : String) (flags : NetworkItemFlags) (player : Int)
  | ItemName (text : String) (flags : NetworkItemFlags) (player : Int)
  | LocationId (text : String) (player : Int)
  | LocationName (text : String) (player : Int)
  | EntranceName (text : String)
  | Color (text : String) (color : JSONColor)
  | Text (text : String)
deriving DecidableEq

/-- Rust `PrintJSON` (`tag = "type"`, variant names used as tags verbatim). -/
inductive PrintJSON where
  | ItemSend (data : List JSONMessagePart) (receiving : Int) (item : NetworkItem)
  | ItemCheat (data : List JSONMessagePart) (receiving : Int) (item : NetworkItem) (team : Int)
  | Hint (data : List JSONMessagePart) (receiving : Int) (item : NetworkItem) (found : Bool)
  | Join (data : List JSONMessagePart) (team : Int) (slot : Int) (tags : List String)
  | Part (data : List JSONMessagePart) (team : Int) (slot : Int)
  | Chat (data : List JSONMessagePart) (team : Int) (slot : Int) (message : String)
  | ServerChat (data : List JSONMessagePart) (message : String)
  | Tutorial (data : List JSONMessagePart)
  | TagsChanged (data : List JSONMessagePart) (team : Int) (slot : Int) (tags : List String)
  | CommandResult (data : List JSONMessagePart)
  | AdminCommandResult (data : List JSONMessagePart)
  | Goal (data : List JSONMessagePart) (team : Int) (slot : Int)
  | Release (data : List JSONMessagePart) (team : Int) (slot : Int)
  | Collect (data : List JSONMessagePart) (team : Int) (slot : Int)
  | Countdown (data : List JSONMessagePart) (countdown : Int)
deriving DecidableEq

/-- Rust `GameData`. -/
structure GameData where
  item_name_to_id : List (String × Int)
  location_name_to_id : List (String × Int)
  version : Int
  checksum : String
deriving DecidableEq

/-- Rust `DataPackageObject`. -/
structure DataPackageObject where
  games : List (String × GameData)
deriving DecidableEq

/-- Rust `DataPackage`. -/
structure DataPackage where
  data : DataPackageObject
deriving DecidableEq

/-- Rust `Bounced` (all four fields carry `#[serde(default)]`; `data` is raw JSON). -/
structure Bounced where
  games : List String
  slots : List Int
  tags : List String
  data : Json

/-- Rust `PacketProblemType` (`rename_all = "snake_case"`). -/
inductive PacketProblemType where
  | Cmd
  | Arguments
deriving DecidableEq

/-- Rust `InvalidPacket` (field `r#type` serializes as `"type"`). -/
structure InvalidPacket where
  type : PacketProblemType
  original_cmd : Option String
  text : String
deriving DecidableEq

/-- Rust `Retrieved` (string-keyed `HashMap` of raw JSON values). -/
structure Retrieved where
  keys : List (String × Json)

/-- Rust `SetReply`. -/
structure SetReply where
  key : String
  value : Json
  original_value : Json

/-- Rust `ServerMessage` (`tag = "cmd"`): the full server→client family. -/
inductive ServerMessage where
  | ReceivedItems (m : ReceivedItems)
  | LocationInfo (m : LocationInfo)
  | RoomUpdate (m : RoomUpdate)
  | PrintJSON (m : PrintJSON)
  | Bounced (m : Bounced)
  | Retrieved (m : Retrieved)
  | SetReply (m : SetReply)
  | InvalidPacket (m : InvalidPacket)

/-- Rust `AnonymousServerMessage` (`tag = "cmd"`): the pre-authentication family. -/
inductive AnonymousServerMessage where
  | RoomInfo (m : RoomInfo)
  | ConnectionRefused (m : ConnectionRefused)
  | Connected (m : Connected)
  | DataPackage (m : DataPackage)
  | InvalidPacket (m : InvalidPacket)

/-- Rust `ClientStatus` (`serde_repr`, u8). -/
inductive ClientStatus where
  | Unknown
  | Connected
  | Ready
  | Playing
  | Goal
deriving DecidableEq

/-- Rust `Connect` (the authentication request payload). -/
structure Connect where
  password : Option String
  game : String
  name : String
  uuid : String
  version : NetworkVersion
  items_handling : ItemsHandlingFlags
  tags : List String
  slot_data : Bool
deriving DecidableEq

/-- Rust `LocationChecks`. -/
structure LocationChecks where
  locations : List Int
deriving DecidableEq

/-- Rust `LocationScouts`. -/
structure LocationScouts where
  locations : List Int
  create_as_hint : Int
deriving DecidableEq

/-- Rust `StatusUpdate`. -/
structure StatusUpdate where
  status : ClientStatus
deriving DecidableEq

/-- Rust `Say`. -/
structure Say where
  text : String
deriving DecidableEq

/-- Rust `GetDataPackage`. -/
structure GetDataPackage where
  games : List String
deriving DecidableEq

/-- Rust `Bounce`. -/
structure Bounce where
  games : List String
  slots : List Int
  tags : List String
  data : Json

/-- Rust `Get`. -/
structure Get where
  keys : List String
deriving DecidableEq

/-- Rust `DataStorageOperation` (`tag = "operation"`, `rename_all = "snake_case"`). -/
inductive DataStorageOperation where
  | Replace (value : Json)
  | Default
  | Add (value : Json)
  | Mul (value : Json)
  | Pow (value : Json)
  | Mod (value : Json)
  | Floor
  | Ceil
  | Max (value : Json)
  | Min (value : Json)
  | And (value : Json)
  | Or (value : Json)
  | Xor (value : Json)
  | LeftShift (value : Json)
  | RightShift (value : Json)
  | Remove (value : Json)
  | Pop (value : Json)
  | Update (value : Json)

/-- Rust `Set` (the data-storage write request). -/
structure Set where
  key : String
  default : Json
  want_reply : Bool
  operations : List DataStorageOperation

/-- Rust `SetNotify`. -/
structure SetNotify where
  keys : List String
deriving DecidableEq

/-- Rust `SyncRequest` is `()` in the source. -/
def SyncRequest : Type := Unit

/-- Rust `ClientMessage` (`tag = "cmd"`): the client→server family. -/
inductive ClientMessage where
  | Connect (m : Connect)
  | Sync (m : SyncRequest)
  | LocationChecks (m : LocationChecks)
  | LocationScouts (m : LocationScouts)
  | StatusUpdate (m : StatusUpdate)
  | Say (m : Say)
  | GetDataPackage (m : GetDataPackage)
  | Bounce (m : Bounce)
  | Get (m : Get)
  | Set (m : Set)
  | SetNotify (m : SetNotify)

/-- Rust `SUPPORTED_VERSION` from `src/client.rs`. -/
def SUPPORTED_VERSION : NetworkVersion := ⟨0, 4, 5⟩

/-! ## Serde model: generic helpers

`serde_json::from_value` is modelled per type by a decoder over `Json`;
`serde_json::to_value`-level serialization by an encoder into `Json`.
Derived struct deserializers look fields up by name and ignore unknown
fields; derived serializers write fields in declaration order. -/

/-- Serialize a `Vec<T>`. -/
def encArr (enc : α → Json) (l : List α) : Json := .arr (l.map enc)

/-- Serialize a string-keyed `HashMap<String, T>` (in iteration order). -/
def encStrMap (enc : α → Json) (kvs : List (String × α)) : Json :=
  .obj (kvs.map fun kv => (kv.1, enc kv.2))

/-- Serialize a `HashMap<K, T>` whose key serializes as a string. -/
def encKeyMap (encK : κ → String) (encV : α → Json) (kvs : List (κ × α)) : Json :=
  .obj (kvs.map fun kv => (encK kv.1, encV kv.2))

/-- Deserialize a required struct field. -/
def decField (dec : Json → Except String α) (v : Json) (key : String) : Except String α :=
  match v.getField key with
  | some w => dec w
  | none => .error ("missing field " ++ key)

/-- Deserialize an `Option<T>` struct field (missing and `null` are `None`). -/
def decOptField (dec : Json → Except String α) (v : Json) (key : String) :
    Except String (Option α) :=
  match v.getField key with
  | none => .ok none
  | some .null => .ok none
  | some w => (dec w).map some

/-- Deserialize a `#[serde(default)]` struct field. -/
def decDefaultField (dec : Json → Except String α) (dflt : α) (v : Json) (key : String) :
    Except String α :=
  match v.getField key with
  | none => .ok dflt
  | some w => dec w

def decInt : Json → Except String Int
  | .num n => .ok n
  | _ => .error "expected an integer"

def decBool : Json → Except String Bool
  | .bool b => .ok b
  | _ => .error "expected a boolean"

def decStr : Json → Except String String
  | .str s => .ok s
  | _ => .error "expected a string"

def decFloat : Json → Except String Float
  | .float f => .ok f
  | .num n => .ok (Float.ofInt n)
  | _ => .error "expected a number"

/-- Rust `serde_json::Value` deserializes from any JSON value unchanged. -/
def decValue : Json → Except String Json := fun v => .ok v

def decU8 : Json → Except String (Fin 256)
  | .num n => if h : 0 ≤ n ∧ n < 256 then .ok ⟨n.toNat, by omega⟩ else .error "u8 out of range"
  | _ => .error "expected a u8"

def encU8 (v : Fin 256) : Json := .num v.val

def decJsonList (dec : Json → Except String α) : List Json → Except String (List α)
  | [] => .ok []
  | v :: rest => do
    let a ← dec v
    let as ← decJsonList dec rest
    .ok (a :: as)

def decArr (dec : Json → Except String α) : Json → Except String (List α)
  | .arr xs => decJsonList dec xs
  | _ => .error "expected an array"

def decPairList (dec : Json → Except String α) :
    List (String × Json) → Except String (List (String × α))
  | [] => .ok []
  | (k, v) :: rest => do
    let a ← dec v
    let as ← decPairList dec rest
    .ok ((k, a) :: as)

def decStrMap (dec : Json → Except String α) : Json → Except String (List (String × α))
  | .obj fields => decPairList dec fields
  | _ => .error "expected a map"

def decKeyPairList (decK : String → Except String κ) (decV : Json → Except String α) :
    List (String × Json) → Except String (List (κ × α))
  | [] => .ok []
  | (k, v) :: rest => do
    let key ← decK k
    let a ← decV v
    let as ← decKeyPairList decK decV rest
    .ok ((key, a) :: as)

def decKeyMap (decK : String → Except String κ) (decV : Json → Except String α) :
    Json → Except String (List (κ × α))
  | .obj fields => decKeyPairList decK decV fields
  | _ => .error "expected a map"

/-! ## Serde model: leaf protocol types -/

/-- Rust `NetworkVersion`'s handwritten `Serialize` impl: the three fields plus a
fixed `"class": "Version"` entry. -/
def encNetworkVersion (v : NetworkVersion) : Json :=
  .obj [("major", .num v.major), ("minor", .num v.minor), ("build", .num v.build),
        ("class", .str "Version")]

/-- Rust `NetworkVersion`'s derived `Deserialize` (ignores the `class` entry). -/
def decNetworkVersion (v : Json) : Except String NetworkVersion := do
  let major ← decField decInt v "major"
  let minor ← decField decInt v "minor"
  let build ← decField decInt v "build"
  .ok { major, minor, build }

def encNetworkItemFlags (f : NetworkItemFlags) : Json := encU8 f.val

def decNetworkItemFlags (v : Json) : Except String NetworkItemFlags :=
  (decU8 v).map NetworkItemFlags.mk

def encItemsHandlingFlags (f : ItemsHandlingFlags) : Json := encU8 f.val

def decItemsHandlingFlags (v : Json) : Except String ItemsHandlingFlags :=
  (decU8 v).map ItemsHandlingFlags.mk

def encSlotType : SlotType → Json
  | .Spectator => .num 0
  | .Player => .num 1
  | .Group => .num 2

def decSlotType : Json → Except String SlotType
  | .num n =>
    if n = 0 then .ok .Spectator
    else if n = 1 then .ok .Player
    else if n = 2 then .ok .Group
    else .error "invalid SlotType"
  | _ => .error "expected a SlotType integer"

def encPermission : Permission → Json
  | .Disabled => .num 0
  | .Enabled => .num 1
  | .Goal => .num 2
  | .Auto => .num 6
  | .AutoEnabled => .num 7

def decPermission : Json → Except String Permission
  | .num n =>
    if n = 0 then .ok .Disabled
    else if n = 1 then .ok .Enabled
    else if n = 2 then .ok .Goal
    else if n = 6 then .ok .Auto
    else if n = 7 then .ok .AutoEnabled
    else .error "invalid Permission"
  | _ => .error "expected a Permission integer"

def encPermissionName : PermissionName → String
  | .Release => "release"
  | .Collect => "collect"
  | .Remaining => "remaining"

def decPermissionName (s : String) : Except String PermissionName :=
  if s = "release" then .ok .Release
  else if s = "collect" then .ok .Collect
  else if s = "remaining" then .ok .Remaining
  else .error "invalid PermissionName"

def encConnectionRefusedError : ConnectionRefusedError → Json
  | .InvalidSlot => .str "InvalidSlot"
  | .InvalidGame => .str "InvalidGame"
  | .IncompatibleVersion => .str "IncompatibleVersion"
  | .InvalidPassword => .str "InvalidPassword"
  | .InvalidItemsHandling => .str "InvalidItemsHandling"

def decConnectionRefusedError : Json → Except String ConnectionRefusedError
  | .str s =>
    if s = "InvalidSlot" then .ok .InvalidSlot
    else if s = "InvalidGame" then .ok .InvalidGame
    else if s = "IncompatibleVersion" then .ok .IncompatibleVersion
    else if s = "InvalidPassword" then .ok .InvalidPassword
    else if s = "InvalidItemsHandling" then .ok .InvalidItemsHandling
    else .error "invalid ConnectionRefusedError"
  | _ => .error "expected a ConnectionRefusedError string"

def encPacketProblemType : PacketProblemType → Json
  | .Cmd => .str "cmd"
  | .Arguments => .str "arguments"

def decPacketProblemType : Json → Except String PacketProblemType
  | .str s =>
    if s = "cmd" then .ok .Cmd
    else if s = "arguments" then .ok .Arguments
    else .error "invalid PacketProblemType"
  | _ => .error "expected a PacketProblemType string"

def encJSONColor : JSONColor → Json
  | .Bold => .str "bold"
  | .Underline => .str "underline"
  | .Black => .str "black"
  | .Red => .str "red"
  | .Green => .str "green"
  | .Yellow => .str "yellow"
  | .Blue => .str "blue"
  | .Magenta => .str "magenta"
  | .Cyan => .str "cyan"
  | .White => .str "white"
  | .BlackBg => .str "black_bg"
  | .RedBg => .str "red_bg"
  | .GreenBg => .str "green_bg"
  | .YellowBg => .str "yellow_bg"
  | .BlueBg => .str "blue_bg"
  | .MagentaBg => .str "magenta_bg"
  | .CyanBg => .str "cyan_bg"
  | .WhiteBg => .str "white_bg"

def decJSONColor : Json → Except String JSONColor
  | .str s =>
    if s = "bold" then .ok .Bold
    else if s = "underline" then .ok .Underline
    else if s = "black" then .ok .Black
    else if s = "red" then .ok .Red
    else if s = "green" then .ok .Green
    else if s = "yellow" then .ok .Yellow
    else if s = "blue" then .ok .Blue
    else if s = "magenta" then .ok .Magenta
    else if s = "cyan" then .ok .Cyan
    else if s = "white" then .ok .White
    else if s = "black_bg" then .ok .BlackBg
    else if s = "red_bg" then .ok .RedBg
    else if s = "green_bg" then .ok .GreenBg
    else if s = "yellow_bg" then .ok .YellowBg
    else if s = "blue_bg" then .ok .BlueBg
    else if s = "magenta_bg" then .ok .MagentaBg
    else if s = "cyan_bg" then .ok .CyanBg
    else if s = "white_bg" then .ok .WhiteBg
    else .error "invalid JSONColor"
  | _ => .error "expected a JSONColor string"

def encNetworkPlayer (p : NetworkPlayer) : Json :=
  .obj [("team", .num p.team), ("slot", .num p.slot), ("alias", .str p.«alias»),
        ("name", .str p.name)]

def decNetworkPlayer (v : Json) : Except String NetworkPlayer := do
  let team ← decField decInt v "team"
  let slot ← decField decInt v "slot"
  let al ← decField decStr v "alias"
  let name ← decField decStr v "name"
  .ok { team, slot, «alias» := al, name }

def encNetworkSlot (s : NetworkSlot) : Json :=
  .obj [("name", .str s.name), ("game", .str s.game), ("type", encSlotType s.type),
        ("group_members", encArr Json.num s.group_members)]

def decNetworkSlot (v : Json) : Except String NetworkSlot := do
  let name ← decField decStr v "name"
  let game ← decField decStr v "game"
  let type ← decField decSlotType v "type"
  let group_members ← decField (decArr decInt) v "group_members"
  .ok { name, game, type, group_members }

def encNetworkItem (i : NetworkItem) : Json :=
  .obj [("item", .num i.item), ("location", .num i.location), ("player", .num i.player),
        ("flags", encNetworkItemFlags i.flags)]

def decNetworkItem (v : Json) : Except String NetworkItem := do
  let item ← decField decInt v "item"
  let location ← decField decInt v "location"
  let player ← decField decInt v "player"
  let flags ← decField decNetworkItemFlags v "flags"
  .ok { item, location, player, flags }

def encJSONMessagePart : JSONMessagePart → Json
  | .PlayerId text player =>
    .obj [("type", .str "player_id"), ("text", .str text), ("player", .num player)]
  | .PlayerName text =>
    .obj [("type", .str "player_name"), ("text", .str text)]
  | .ItemId text flags player =>
    .obj [("type", .str "item_id"), ("text", .str text),
          ("flags", encNetworkItemFlags flags), ("player", .num player)]
  | .ItemName text flags player =>
    .obj [("type", .str "item_name"), ("text", .str text),
          ("flags", encNetworkItemFlags flags), ("player", .num player)]
  | .LocationId text player =>
    .obj [("type", .str "location_id"), ("text", .str text), ("player", .num player)]
  | .LocationName text player =>
    .obj [("type", .str "location_name"), ("text", .str text), ("player", .num player)]
  | .EntranceName text =>
    .obj [("type", .str "entrance_name"), ("text", .str text)]
  | .Color text color =>
    .obj [("type", .str "color"), ("text", .str text), ("color", encJSONColor color)]
  | .Text text =>
    .obj [("text", .str text)]

/-- Deserializer for `JSONMessagePart`: dispatch on `"type"`; a missing or
unrecognized tag falls back to the `#[serde(untagged)]` `Text` variant. -/
def decJSONMessagePart (v : Json) : Except String JSONMessagePart :=
  let asText : Except String JSONMessagePart := do
    let text ← decField decStr v "text"
    .ok (.Text text)
  match v.getField "type" with
  | some (.str tag) =>
    if tag = "player_id" then do
      let text ← decField decStr v "text"
      let player ← decField decInt v "player"
      .ok (.PlayerId text player)
    else if tag = "player_name" then do
      let text ← decField decStr v "text"
      .ok (.PlayerName text)
    else if tag = "item_id" then do
      let text ← decField decStr v "text"
      let flags ← decField decNetworkItemFlags v "flags"
      let player ← decField decInt v "player"
      .ok (.ItemId text flags player)
    else if tag = "item_name" then do
      let text ← decField decStr v "text"
      let flags ← decField decNetworkItemFlags v "flags"
      let player ← decField decInt v "player"
      .ok (.ItemName text flags player)
    else if tag = "location_id" then do
      let text ← decField decStr v "text"
      let player ← decField decInt v "player"
      .ok (.LocationId text player)
    else if tag = "location_name" then do
      let text ← decField decStr v "text"
      let player ← decField decInt v "player"
      .ok (.LocationName text player)
    else if tag = "entrance_name" then do
      let text ← decField decStr v "text"
      .ok (.EntranceName text)
    else if tag = "color" then do
      let text ← decField decStr v "text"
      let color ← decField decJSONColor v "color"
      .ok (.Color text color)
    else asText
  | _ => asText

/-! ## Serde model: server message payload structs -/

def encRoomInfoFields (r : RoomInfo) : List (String × Json) :=
  [("version", encNetworkVersion r.version),
   ("generator_version", encNetworkVersion r.generator_version),
   ("tags", encArr Json.str r.tags),
   ("password", .bool r.password_required),
   ("permissions", encKeyMap encPermissionName encPermission r.permissions),
   ("hint_cost", .num r.hint_cost),
   ("location_check_points", .num r.location_check_points),
   ("games", encArr Json.str r.games),
   ("datapackage_versions", encStrMap Json.num r.datapackage_versions),
   ("datapackage_checksums", encStrMap Json.str r.datapackage_checksums),
   ("seed_name", .str r.seed_name),
   ("time", .float r.time)]

def decRoomInfo (v : Json) : Except String RoomInfo := do
  let version ← decField decNetworkVersion v "version"
  let generator_version ← decField decNetworkVersion v "generator_version"
  let tags ← decField (decArr decStr) v "tags"
  let password_required ← decField decBool v "password"
  let permissions ← decField (decKeyMap decPermissionName decPermission) v "permissions"
  let hint_cost ← decField decInt v "hint_cost"
  let location_check_points ← decField decInt v "location_check_points"
  let games ← decField (decArr decStr) v "games"
  let datapackage_versions ← decField (decStrMap decInt) v "datapackage_versions"
  let datapackage_checksums ← decField (decStrMap decStr) v "datapackage_checksums"
  let seed_name ← decField decStr v "seed_name"
  let time ← decField decFloat v "time"
  .ok { version, generator_version, tags, password_required, permissions, hint_cost,
        location_check_points, games, datapackage_versions, datapackage_checksums,
        seed_name, time }

def encConnectionRefusedFields (c : ConnectionRefused) : List (String × Json) :=
  [("errors", encArr encConnectionRefusedError c.errors)]

def decConnectionRefused (v : Json) : Except String ConnectionRefused := do
  let errors ← decField (decArr decConnectionRefusedError) v "errors"
  .ok { errors }

def encConnectedFields (c : Connected) : List (String × Json) :=
  [("team", .num c.team),
   ("slot", .num c.slot),
   ("players", encArr encNetworkPlayer c.players),
   ("missing_locations", encArr Json.num c.missing_locations),
   ("checked_locations", encArr Json.num c.checked_locations),
   ("slot_data", encStrMap id c.slot_data),
   ("slot_info", encStrMap encNetworkSlot c.slot_info),
   ("hint_points", .num c.hint_points)]

def decConnected (v : Json) : Except String Connected := do
  let team ← decField decInt v "team"
  let slot ← decField decInt v "slot"
  let players ← decField (decArr decNetworkPlayer) v "players"
  let missing_locations ← decField (decArr decInt) v "missing_locations"
  let checked_locations ← decField (decArr decInt) v "checked_locations"
  let slot_data ← decField (decStrMap decValue) v "slot_data"
  let slot_info ← decField (decStrMap decNetworkSlot) v "slot_info"
  let hint_points ← decField decInt v "hint_points"
  .ok { team, slot, players, missing_locations, checked_locations, slot_data,
        slot_info, hint_points }

def encReceivedItemsFields (r : ReceivedItems) : List (String × Json) :=
  [("index", .num r.index), ("items", encArr encNetworkItem r.items)]

def decReceivedItems (v : Json) : Except String ReceivedItems := do
  let index ← decField decInt v "index"
  let items ← decField (decArr decNetworkItem) v "items"
  .ok { index, items }

def encLocationInfoFields (l : LocationInfo) : List (String × Json) :=
  [("locations", encArr encNetworkItem l.locations)]

def decLocationInfo (v : Json) : Except String LocationInfo := do
  let locations ← decField (decArr decNetworkItem) v "locations"
  .ok { locations }

def encRoomUpdateFields (_ : RoomUpdate) : List (String × Json) := []

def decRoomUpdate (_ : Json) : Except String RoomUpdate := .ok {}

def encPrintJSONFields : PrintJSON → List (String × Json)
  | .ItemSend data receiving item =>
    [("type", .str "ItemSend"), ("data", encArr encJSONMessagePart data),
     ("receiving", .num receiving), ("item", encNetworkItem item)]
  | .ItemCheat data receiving item team =>
    [("type", .str "ItemCheat"), ("data", encArr encJSONMessagePart data),
     ("receiving", .num receiving), ("item", encNetworkItem item), ("team", .num team)]
  | .Hint data receiving item found =>
    [("type", .str "Hint"), ("data", encArr encJSONMessagePart data),
     ("receiving", .num receiving), ("item", encNetworkItem item), ("found", .bool found)]
  | .Join data team slot tags =>
    [("type", .str "Join"), ("data", encArr encJSONMessagePart data),
     ("team", .num team), ("slot", .num slot), ("tags", encArr Json.str tags)]
  | .Part data team slot =>
    [("type", .str "Part"), ("data", encArr encJSONMessagePart data),
     ("team", .num team), ("slot", .num slot)]
  | .Chat data team slot message =>
    [("type", .str "Chat"), ("data", encArr encJSONMessagePart data),
     ("team", .num team), ("slot", .num slot), ("message", .str message)]
  | .ServerChat data message =>
    [("type", .str "ServerChat"), ("data", encArr encJSONMessagePart data),
     ("message", .str message)]
  | .Tutorial data =>
    [("type", .str "Tutorial"), ("data", encArr encJSONMessagePart data)]
  | .TagsChanged data team slot tags =>
    [("type", .str "TagsChanged"), ("data", encArr encJSONMessagePart data),
     ("team", .num team), ("slot", .num slot), ("tags", encArr Json.str tags)]
  | .CommandResult data =>
    [("type", .str "CommandResult"), ("data", encArr encJSONMessagePart data)]
  | .AdminCommandResult data =>
    [("type", .str "AdminCommandResult"), ("data", encArr encJSONMessagePart data)]
  | .Goal data team slot =>
    [("type", .str "Goal"), ("data", encArr encJSONMessagePart data),
     ("team", .num team), ("slot", .num slot)]
  | .Release data team slot =>
    [("type", .str "Release"), ("data", encArr encJSONMessagePart data),
     ("team", .num team), ("slot", .num slot)]
  | .Collect data team slot =>
    [("type", .str "Collect"), ("data", encArr encJSONMessagePart data),
     ("team", .num team), ("slot", .num slot)]
  | .Countdown data countdown =>
    [("type", .str "Countdown"), ("data", encArr encJSONMessagePart data),
     ("countdown", .num countdown)]

def decPrintJSON (v : Json) : Except String PrintJSON :=
  match v.getField "type" with
  | some (.str tag) =>
    if tag = "ItemSend" then do
      let data ← decField (decArr decJSONMessagePart) v "data"
      let receiving ← decField decInt v "receiving"
      let item ← decField decNetworkItem v "item"
      .ok (.ItemSend data receiving item)
    else if tag = "ItemCheat" then do
      let data ← decField (decArr decJSONMessagePart) v "data"
      let receiving ← decField decInt v "receiving"
      let item ← decField decNetworkItem v "item"
      let team ← decField decInt v "team"
      .ok (.ItemCheat data receiving item team)
    else if tag = "Hint" then do
      let data ← decField (decArr decJSONMessagePart) v "data"
      let receiving ← decField decInt v "receiving"
      let item ← decField decNetworkItem v "item"
      let found ← decField decBool v "found"
      .ok (.Hint data receiving item found)
    else if tag = "Join" then do
      let data ← decField (decArr decJSONMessagePart) v "data"
      let team ← decField decInt v "team"
      let slot ← decField decInt v "slot"
      let tags ← decField (decArr decStr) v "tags"
      .ok (.Join data team slot tags)
    else if tag = "Part" then do
      let data ← decField (decArr decJSONMessagePart) v "data"
      let team ← decField decInt v "team"
      let slot ← decField decInt v "slot"
      .ok (.Part data team slot)
    else if tag = "Chat" then do
      let data ← decField (decArr decJSONMessagePart) v "data"
      let team ← decField decInt v "team"
      let slot ← decField decInt v "slot"
      let message ← decField decStr v "message"
      .ok (.Chat data team slot message)
    else if tag = "ServerChat" then do
      let data ← decField (decArr decJSONMessagePart) v "data"
      let message ← decField decStr v "message"
      .ok (.ServerChat data message)
    else if tag = "Tutorial" then do
      let data ← decField (decArr decJSONMessagePart) v "data"
      .ok (.Tutorial data)
    else if tag = "TagsChanged" then do
      let data ← decField (decArr decJSONMessagePart) v "data"
      let team ← decField decInt v "team"
      let slot ← decField decInt v "slot"
      let tags ← decField (decArr decStr) v "tags"
      .ok (.TagsChanged data team slot tags)
    else if tag = "CommandResult" then do
      let data ← decField (decArr decJSONMessagePart) v "data"
      .ok (.CommandResult data)
    else if tag = "AdminCommandResult" then do
      let data ← decField (decArr decJSONMessagePart) v "data"
      .ok (.AdminCommandResult data)
    else if tag = "Goal" then do
      let data ← decField (decArr decJSONMessagePart) v "data"
      let team ← decField decInt v "team"
      let slot ← decField decInt v "slot"
      .ok (.Goal data team slot)
    else if tag = "Release" then do
      let data ← decField (decArr decJSONMessagePart) v "data"
      let team ← decField decInt v "team"
      let slot ← decField decInt v "slot"
      .ok (.Release data team slot)
    else if tag = "Collect" then do
      let data ← decField (decArr decJSONMessagePart) v "data"
      let team ← decField decInt v "team"
      let slot ← decField decInt v "slot"
      .ok (.Collect data team slot)
    else if tag = "Countdown" then do
      let data ← decField (decArr decJSONMessagePart) v "data"
      let countdown ← decField decInt v "countdown"
      .ok (.Countdown data countdown)
    else .error ("unknown PrintJSON variant " ++ tag)
  | some _ => .error "invalid type for field type"
  | none => .error "missing field type"

def encGameData (g : GameData) : Json :=
  .obj [("item_name_to_id", encStrMap Json.num g.item_name_to_id),
        ("location_name_to_id", encStrMap Json.num g.location_name_to_id),
        ("version", .num g.version),
        ("checksum", .str g.checksum)]

def decGameData (v : Json) : Except String GameData := do
  let item_name_to_id ← decField (decStrMap decInt) v "item_name_to_id"
  let location_name_to_id ← decField (decStrMap decInt) v "location_name_to_id"
  let version ← decField decInt v "version"
  let checksum ← decField decStr v "checksum"
  .ok { item_name_to_id, location_name_to_id, version, checksum }

def encDataPackageObject (d : DataPackageObject) : Json :=
  .obj [("games", encStrMap encGameData d.games)]

def decDataPackageObject (v : Json) : Except String DataPackageObject := do
  let games ← decField (decStrMap decGameData) v "games"
  .ok { games }

def encDataPackageFields (d : DataPackage) : List (String × Json) :=
  [("data", encDataPackageObject d.data)]

def decDataPackage (v : Json) : Except String DataPackage := do
  let data ← decField decDataPackageObject v "data"
  .ok { data }

def encBouncedFields (b : Bounced) : List (String × Json) :=
  [("games", encArr Json.str b.games),
   ("slots", encArr Json.num b.slots),
   ("tags", encArr Json.str b.tags),
   ("data", b.data)]

def decBounced (v : Json) : Except String Bounced := do
  let games ← decDefaultField (decArr decStr) [] v "games"
  let slots ← decDefaultField (decArr decInt) [] v "slots"
  let tags ← decDefaultField (decArr decStr) [] v "tags"
  let data ← decDefaultField decValue .null v "data"
  .ok { games, slots, tags, data }

def encInvalidPacketFields (i : InvalidPacket) : List (String × Json) :=
  [("type", encPacketProblemType i.type),
   ("original_cmd", match i.original_cmd with
                    | some s => .str s
                    | none => .null),
   ("text", .str i.text)]

def decInvalidPacket (v : Json) : Except String InvalidPacket := do
  let type ← decField decPacketProblemType v "type"
  let original_cmd ← decOptField decStr v "original_cmd"
  let text ← decField decStr v "text"
  .ok { type, original_cmd, text }

def encRetrievedFields (r : Retrieved) : List (String × Json) :=
  [("keys", encStrMap id r.keys)]

def decRetrieved (v : Json) : Except String Retrieved := do
  let keys ← decField (decStrMap decValue) v "keys"
  .ok { keys }

def encSetReplyFields (s : SetReply) : List (String × Json) :=
  [("key", .str s.key), ("value", s.value), ("original_value", s.original_value)]

def decSetReply (v : Json) : Except String SetReply := do
  let key ← decField decStr v "key"
  let value ← decField decValue v "value"
  let original_value ← decField decValue v "original_value"
  .ok { key, value, original_value }

/-! ## Serde model: the two server message families (`tag = "cmd"`) -/

def encServerMessage : ServerMessage → Json
  | .ReceivedItems m => .obj (("cmd", .str "ReceivedItems") :: encReceivedItemsFields m)
  | .LocationInfo m => .obj (("cmd", .str "LocationInfo") :: encLocationInfoFields m)
  | .RoomUpdate m => .obj (("cmd", .str "RoomUpdate") :: encRoomUpdateFields m)
  | .PrintJSON m => .obj (("cmd", .str "PrintJSON") :: encPrintJSONFields m)
  | .Bounced m => .obj (("cmd", .str "Bounced") :: encBouncedFields m)
  | .Retrieved m => .obj (("cmd", .str "Retrieved") :: encRetrievedFields m)
  | .SetReply m => .obj (("cmd", .str "SetReply") :: encSetReplyFields m)
  | .InvalidPacket m => .obj (("cmd", .str "InvalidPacket") :: encInvalidPacketFields m)

def decServerMessage (v : Json) : Except String ServerMessage :=
  match v.getField "cmd" with
  | some (.str tag) =>
    if tag = "ReceivedItems" then (decReceivedItems v).map .ReceivedItems
    else if tag = "LocationInfo" then (decLocationInfo v).map .LocationInfo
    else if tag = "RoomUpdate" then (decRoomUpdate v).map .RoomUpdate
    else if tag = "PrintJSON" then (decPrintJSON v).map .PrintJSON
    else if tag = "Bounced" then (decBounced v).map .Bounced
    else if tag = "Retrieved" then (decRetrieved v).map .Retrieved
    else if tag = "SetReply" then (decSetReply v).map .SetReply
    else if tag = "InvalidPacket" then (decInvalidPacket v).map .InvalidPacket
    else .error ("unknown ServerMessage variant " ++ tag)
  | some _ => .error "invalid type for field cmd"
  | none => .error "missing field cmd"

def encAnonymousServerMessage : AnonymousServerMessage → Json
  | .RoomInfo m => .obj (("cmd", .str "RoomInfo") :: encRoomInfoFields m)
  | .ConnectionRefused m => .obj (("cmd", .str "ConnectionRefused") :: encConnectionRefusedFields m)
  | .Connected m => .obj (("cmd", .str "Connected") :: encConnectedFields m)
  | .DataPackage m => .obj (("cmd", .str "DataPackage") :: encDataPackageFields m)
  | .InvalidPacket m => .obj (("cmd", .str "InvalidPacket") :: encInvalidPacketFields m)

def decAnonymousServerMessage (v : Json) : Except String AnonymousServerMessage :=
  match v.getField "cmd" with
  | some (.str tag) =>
    if tag = "RoomInfo" then (decRoomInfo v).map .RoomInfo
    else if tag = "ConnectionRefused" then (decConnectionRefused v).map .ConnectionRefused
    else if tag = "Connected" then (decConnected v).map .Connected
    else if tag = "DataPackage" then (decDataPackage v).map .DataPackage
    else if tag = "InvalidPacket" then (decInvalidPacket v).map .InvalidPacket
    else .error ("unknown AnonymousServerMessage variant " ++ tag)
  | some _ => .error "invalid type for field cmd"
  | none => .error "missing field cmd"

/-! ## Serde model: the client message family (`tag = "cmd"`)

Serialization of client messages is fallible, as in serde: an internally
tagged newtype variant can only carry content that serializes as a map
(the tag entry is prepended), as unit / `null` (the bare tag-only map is
written), or as a struct; any other content makes `serialize` fail.  This
matters for `DataStorageOperation`, whose payloads are raw JSON values. -/

def Json.isObj : Json → Bool
  | .obj _ => true
  | _ => false

/-- Drop the first entry with the given key: the tag entry consumed by the
internally tagged deserializer; every other entry is content. -/
def removeFirstField : List (String × Json) → String → List (String × Json)
  | [], _ => []
  | (k, v) :: rest, key => if k = key then rest else (k, v) :: removeFirstField rest key

/-- Serialize each element with a fallible serializer. -/
def encExceptList (enc : α → Except String Json) : List α → Except String (List Json)
  | [] => .ok []
  | a :: rest => do
    let j ← enc a
    let js ← encExceptList enc rest
    .ok (j :: js)

def encClientStatus : ClientStatus → Json
  | .Unknown => .num 0
  | .Connected => .num 5
  | .Ready => .num 10
  | .Playing => .num 20
  | .Goal => .num 30

def decClientStatus : Json → Except String ClientStatus
  | .num n =>
    if n = 0 then .ok .Unknown
    else if n = 5 then .ok .Connected
    else if n = 10 then .ok .Ready
    else if n = 20 then .ok .Playing
    else if n = 30 then .ok .Goal
    else .error "invalid ClientStatus"
  | _ => .error "expected a ClientStatus integer"

/-- Whether a value-carrying operation's payload is a JSON object (the only
payload shape the internally tagged serialization round-trips). -/
def DataStorageOperation.valueIsObj : DataStorageOperation → Bool
  | .Replace v | .Add v | .Mul v | .Pow v | .Mod v | .Max v | .Min v | .And v | .Or v
  | .Xor v | .LeftShift v | .RightShift v | .Remove v | .Pop v | .Update v => v.isObj
  | .Default | .Floor | .Ceil => true

/-- Serialization of a tagged newtype variant carrying a raw JSON value
(serde's `TaggedSerializer`): an object gets the tag entry prepended, unit
(`null`) becomes the tag-only map, everything else fails. -/
def encTaggedValue (variant : String) : Json → Except String Json
  | .obj m => .ok (.obj (("operation", .str variant) :: m))
  | .null => .ok (.obj [("operation", .str variant)])
  | _ => .error ("cannot serialize tagged newtype variant DataStorageOperation::" ++ variant)

def encDataStorageOperation : DataStorageOperation → Except String Json
  | .Replace v => encTaggedValue "replace" v
  | .Default => .ok (.obj [("operation", .str "default")])
  | .Add v => encTaggedValue "add" v
  | .Mul v => encTaggedValue "mul" v
  | .Pow v => encTaggedValue "pow" v
  | .Mod v => encTaggedValue "mod" v
  | .Floor => .ok (.obj [("operation", .str "floor")])
  | .Ceil => .ok (.obj [("operation", .str "ceil")])
  | .Max v => encTaggedValue "max" v
  | .Min v => encTaggedValue "min" v
  | .And v => encTaggedValue "and" v
  | .Or v => encTaggedValue "or" v
  | .Xor v => encTaggedValue "xor" v
  | .LeftShift v => encTaggedValue "left_shift" v
  | .RightShift v => encTaggedValue "right_shift" v
  | .Remove v => encTaggedValue "remove" v
  | .Pop v => encTaggedValue "pop" v
  | .Update v => encTaggedValue "update" v

/-- Deserializer for `DataStorageOperation`: the first `operation` entry is
the tag; the remaining entries are the content map, which is the payload of
a value-carrying variant (unit variants ignore the content). -/
def decDataStorageOperation : Json → Except String DataStorageOperation
  | .obj fields =>
    match lookupField fields "operation" with
    | some (.str tag) =>
      let content : Json := .obj (removeFirstField fields "operation")
      if tag = "replace" then .ok (.Replace content)
      else if tag = "default" then .ok .Default
      else if tag = "add" then .ok (.Add content)
      else if tag = "mul" then .ok (.Mul content)
      else if tag = "pow" then .ok (.Pow content)
      else if tag = "mod" then .ok (.Mod content)
      else if tag = "floor" then .ok .Floor
      else if tag = "ceil" then .ok .Ceil
      else if tag = "max" then .ok (.Max content)
      else if tag = "min" then .ok (.Min content)
      else if tag = "and" then .ok (.And content)
      else if tag = "or" then .ok (.Or content)
      else if tag = "xor" then .ok (.Xor content)
      else if tag = "left_shift" then .ok (.LeftShift content)
      else if tag = "right_shift" then .ok (.RightShift content)
      else if tag = "remove" then .ok (.Remove content)
      else if tag = "pop" then .ok (.Pop content)
      else if tag = "update" then .ok (.Update content)
      else .error ("unknown DataStorageOperation variant " ++ tag)
    | _ => .error "missing field operation"
  | _ => .error "expected a map"

def encConnectFields (c : Connect) : List (String × Json) :=
  [("password", match c.password with
                | some s => .str s
                | none => .null),
   ("game", .str c.game), ("name", .str c.name), ("uuid", .str c.uuid),
   ("version", encNetworkVersion c.version),
   ("items_handling", encItemsHandlingFlags c.items_handling),
   ("tags", encArr Json.str c.tags), ("slot_data", .bool c.slot_data)]

def decConnect (v : Json) : Except String Connect := do
  let password ← decOptField decStr v "password"
  let game ← decField decStr v "game"
  let name ← decField decStr v "name"
  let uuid ← decField decStr v "uuid"
  let version ← decField decNetworkVersion v "version"
  let items_handling ← decField decItemsHandlingFlags v "items_handling"
  let tags ← decField (decArr decStr) v "tags"
  let slot_data ← decField decBool v "slot_data"
  .ok { password, game, name, uuid, version, items_handling, tags, slot_data }

def encLocationChecksFields (l : LocationChecks) : List (String × Json) :=
  [("locations", encArr Json.num l.locations)]

def decLocationChecks (v : Json) : Except String LocationChecks := do
  let locations ← decField (decArr decInt) v "locations"
  .ok { locations }

def encLocationScoutsFields (l : LocationScouts) : List (String × Json) :=
  [("locations", encArr Json.num l.locations), ("create_as_hint", .num l.create_as_hint)]

def decLocationScouts (v : Json) : Except String LocationScouts := do
  let locations ← decField (decArr decInt) v "locations"
  let create_as_hint ← decField decInt v "create_as_hint"
  .ok { locations, create_as_hint }

def encStatusUpdateFields (s : StatusUpdate) : List (String × Json) :=
  [("status", encClientStatus s.status)]

def decStatusUpdate (v : Json) : Except String StatusUpdate := do
  let status ← decField decClientStatus v "status"
  .ok { status }

def encSayFields (s : Say) : List (String × Json) :=
  [("text", .str s.text)]

def decSay (v : Json) : Except String Say := do
  let text ← decField decStr v "text"
  .ok { text }

def encGetDataPackageFields (g : GetDataPackage) : List (String × Json) :=
  [("games", encArr Json.str g.games)]

def decGetDataPackage (v : Json) : Except String GetDataPackage := do
  let games ← decField (decArr decStr) v "games"
  .ok { games }

def encBounceFields (b : Bounce) : List (String × Json) :=
  [("games", encArr Json.str b.games), ("slots", encArr Json.num b.slots),
   ("tags", encArr Json.str b.tags), ("data", b.data)]

def decBounce (v : Json) : Except String Bounce := do
  let games ← decField (decArr decStr) v "games"
  let slots ← decField (decArr decInt) v "slots"
  let tags ← decField (decArr decStr) v "tags"
  let data ← decField decValue v "data"
  .ok { games, slots, tags, data }

def encGetFields (g : Get) : List (String × Json) :=
  [("keys", encArr Json.str g.keys)]

def decGet (v : Json) : Except String Get := do
  let keys ← decField (decArr decStr) v "keys"
  .ok { keys }

def decSetMsg (v : Json) : Except String Set := do
  let key ← decField decStr v "key"
  let dflt ← decField decValue v "default"
  let want_reply ← decField decBool v "want_reply"
  let operations ← decField (decArr decDataStorageOperation) v "operations"
  .ok { key, default := dflt, want_reply, operations }

def encSetNotifyFields (s : SetNotify) : List (String × Json) :=
  [("keys", encArr Json.str s.keys)]

def decSetNotify (v : Json) : Except String SetNotify := do
  let keys ← decField (decArr decStr) v "keys"
  .ok { keys }

/-- Every data-storage-operation payload inside the message is a JSON
object; the other ten variants impose no condition.  This is exactly the
domain on which client-message serialization succeeds and round-trips. -/
def wfClientMessage : ClientMessage → Bool
  | .Set s => s.operations.all DataStorageOperation.valueIsObj
  | _ => true

/-- Serializer for `ClientMessage`.  `Sync` carries `()`, which the tagged
serializer writes as the tag-only map; `Set` can fail when an operation
payload does not serialize under the inner tag. -/
def encClientMessage : ClientMessage → Except String Json
  | .Connect c => .ok (.obj (("cmd", .str "Connect") :: encConnectFields c))
  | .Sync _ => .ok (.obj [("cmd", .str "Sync")])
  | .LocationChecks l => .ok (.obj (("cmd", .str "LocationChecks") :: encLocationChecksFields l))
  | .LocationScouts l => .ok (.obj (("cmd", .str "LocationScouts") :: encLocationScoutsFields l))
  | .StatusUpdate s => .ok (.obj (("cmd", .str "StatusUpdate") :: encStatusUpdateFields s))
  | .Say s => .ok (.obj (("cmd", .str "Say") :: encSayFields s))
  | .GetDataPackage g => .ok (.obj (("cmd", .str "GetDataPackage") :: encGetDataPackageFields g))
  | .Bounce b => .ok (.obj (("cmd", .str "Bounce") :: encBounceFields b))
  | .Get g => .ok (.obj (("cmd", .str "Get") :: encGetFields g))
  | .Set s => do
    let ops ← encExceptList encDataStorageOperation s.operations
    .ok (.obj [("cmd", .str "Set"), ("key", .str s.key), ("default", s.default),
               ("want_reply", .bool s.want_reply), ("operations", .arr ops)])
  | .SetNotify s => .ok (.obj (("cmd", .str "SetNotify") :: encSetNotifyFields s))

/-- Deserializer for `ClientMessage`.  The `Sync` variant carries `()`,
which deserializes only from an empty content map (the tag-only envelope). -/
def decClientMessage : Json → Except String ClientMessage
  | .obj fields =>
    (match lookupField fields "cmd" with
     | some (.str tag) =>
       if tag = "Connect" then (decConnect (.obj fields)).map .Connect
       else if tag = "Sync" then
         match removeFirstField fields "cmd" with
         | [] => .ok (.Sync ())
         | _ => .error "invalid type for unit variant Sync"
       else if tag = "LocationChecks" then (decLocationChecks (.obj fields)).map .LocationChecks
       else if tag = "LocationScouts" then (decLocationScouts (.obj fields)).map .LocationScouts
       else if tag = "StatusUpdate" then (decStatusUpdate (.obj fields)).map .StatusUpdate
       else if tag = "Say" then (decSay (.obj fields)).map .Say
       else if tag = "GetDataPackage" then (decGetDataPackage (.obj fields)).map .GetDataPackage
       else if tag = "Bounce" then (decBounce (.obj fields)).map .Bounce
       else if tag = "Get" then (decGet (.obj fields)).map .Get
       else if tag = "Set" then (decSetMsg (.obj fields)).map .Set
       else if tag = "SetNotify" then (decSetNotify (.obj fields)).map .SetNotify
       else .error ("unknown ClientMessage variant " ++ tag)
     | some _ => .error "invalid type for field cmd"
     | none => .error "missing field cmd")
  | _ => .error "expected a map"

/-! ## The inbound demultiplexer (`MessageStream`, `src/client.rs`)

A websocket frame (`tungstenite::Message`).  A text frame is modelled at
the boundary of string-level JSON parsing: it carries the parsed root JSON
value of its body.  Payload bytes of the other frame kinds are ignored by
the client code and carried only for shape. -/
inductive Frame where
  | text (body : Json)
  | binary (data : List Nat)
  | ping (data : List Nat)
  | pong (data : List Nat)
  | close (reason : Option String)
  | frame

/-- One item produced by the transport stream: a frame, or a websocket
error (`tungstenite::Error`, modelled by its message). -/
def TransportItem : Type := Except String Frame

/-- Rust `MessageStreamError` from `src/client.rs`. -/
inductive MessageStreamError where
  | ParseError (e : String)
  | WebsocketError (e : String)
  | UnexpectedMessageType (kind : String)
deriving DecidableEq

/-- Rust `std::task::Poll`. -/
inductive Poll (α : Type) where
  | ready (val : α)
  | pending
deriving DecidableEq

/-- The state of a `MessageStream<T>`: the remaining transport items
(`inner`, the `SplitStream`; its exhaustion is the stream's natural end)
and the residual queue (`message_buffer`).  The decode target `T` enters
only through the decoder passed to `pollNext`, mirroring the
`PhantomData<T>` generic. -/
structure StreamState where
  inner : List TransportItem
  message_buffer : List Json
deriving Inhabited

/-- Rust `MessageStream::new(inner, message_buffer)`. -/
def MessageStream.new (inner : List TransportItem) (message_buffer : List Json) :
    StreamState :=
  ⟨inner, message_buffer⟩

/-- Rust `MessageStream::into_inner`. -/
def MessageStream.into_inner (st : StreamState) : List TransportItem × List Json :=
  (st.inner, st.message_buffer)

/-- Rust `serde_json::from_value::<T>(..).map_err(|e| e.into())`. -/
def decodeResult (dec : Json → Except String T) (v : Json) : Except MessageStreamError T :=
  match dec v with
  | .ok t => .ok t
  | .error e => .error (.ParseError e)

/-- Rust `serde_json::from_str::<VecDeque<serde_json::Value>>` applied to the
parsed body of a text frame: succeeds exactly on an array root. -/
def parseArray : Json → Except String (List Json)
  | .arr xs => .ok xs
  | _ => .error "invalid type: expected a sequence"

/-- Rust `<MessageStream<T> as Stream>::poll_next`, one invocation.  Returns the
poll result and the successor state. -/
def pollNext (dec : Json → Except String T) (st : StreamState) :
    Poll (Option (Except MessageStreamError T)) × StreamState :=
  match st.message_buffer with
  | message :: rest => (.ready (some (decodeResult dec message)), ⟨st.inner, rest⟩)
  | [] =>
    match st.inner with
    | [] => (.ready none, ⟨[], []⟩)
    | .error e :: rest => (.ready (some (.error (.WebsocketError e))), ⟨rest, []⟩)
    | .ok fr :: rest =>
      match fr with
      | .text body =>
        match parseArray body with
        | .error e => (.ready (some (.error (.ParseError e))), ⟨rest, []⟩)
        | .ok messages =>
          match messages with
          | [] => (.pending, ⟨rest, []⟩)
          | message :: more => (.ready (some (decodeResult dec message)), ⟨rest, more⟩)
      | .ping _ => (.pending, ⟨rest, []⟩)
      | .pong _ => (.pending, ⟨rest, []⟩)
      | .close _ => (.ready none, ⟨rest, []⟩)
      | .binary _ => (.ready (some (.error (.UnexpectedMessageType "binary"))), ⟨rest, []⟩)
      | .frame => (.ready (some (.error (.UnexpectedMessageType "frame"))), ⟨rest, []⟩)

/-- Performs `n` consecutive `poll_next` invocations: the list of poll results in
order, and the final state. -/
def pollProductions (dec : Json → Except String T) :
    Nat → StreamState → List (Poll (Option (Except MessageStreamError T))) × StreamState
  | 0, st => ([], st)
  | n + 1, st =>
    let (r, st') := pollNext dec st
    let (rs, st'') := pollProductions dec n st'
    (r :: rs, st'')

/-- Drive `poll_next` until it is ready, with explicit fuel (each `pending`
consumes a transport item, so `inner.length + 1` fuel always suffices). -/
def drive (dec : Json → Except String T) :
    Nat → StreamState → Option (Except MessageStreamError T) × StreamState
  | 0, st => (none, st)
  | fuel + 1, st =>
    match pollNext dec st with
    | (.ready r, st') => (r, st')
    | (.pending, st') => drive dec fuel st'

/-- Rust `StreamExt::next(..).await` on a `MessageStream<T>`. -/
def next (dec : Json → Except String T) (st : StreamState) :
    Option (Except MessageStreamError T) × StreamState :=
  drive dec (st.inner.length + 1) st

/-! ## The handshake state machine (`AnonymousClient` / `Client`)

Errors are `anyhow` errors in the source; they are modelled structurally,
each constructor carrying the payload the corresponding `anyhow!` message
embeds. -/
inductive ClientError where
  | expectedRoomInfo (got : AnonymousServerMessage)
  | expectedDataPackage (got : AnonymousServerMessage)
  | gotInvalidPacket (invalid : InvalidPacket)
  | gotConnectionRefused (refused : ConnectionRefused)
  | expectedConnected (got : AnonymousServerMessage)
  | streamFailed (e : MessageStreamError)
  | streamEnded

/-- Rust `AnonymousClient`: reader state, sink (as the list of messages
submitted so far, oldest first), and the stored `RoomInfo`. -/
structure AnonymousClient where
  ws_reader : StreamState
  ws_writer : List ClientMessage
  room_info : RoomInfo

/-- Rust `Client`: the authenticated session. -/
structure Client where
  ws_reader : StreamState
  ws_writer : List ClientMessage
  room_info : RoomInfo
  connected : Connected

/-- Rust `AnonymousClient::new`, from the point where the websocket connection
is established: the transport's items stand in for the connected socket.
The first production must be the `RoomInfo` announcement. -/
def AnonymousClient.new (transport : List TransportItem) :
    Except ClientError AnonymousClient :=
  let ws_reader := MessageStream.new transport []
  match next decAnonymousServerMessage ws_reader with
  | (some (.ok (.RoomInfo room_info)), st) =>
    .ok { ws_reader := st, ws_writer := [], room_info }
  | (some (.ok m), _) => .error (.expectedRoomInfo m)
  | (some (.error e), _) => .error (.streamFailed e)
  | (none, _) => .error .streamEnded

/-- Rust `AnonymousClient::get_data_package`. -/
def AnonymousClient.get_data_package (self : AnonymousClient) :
    Except ClientError (DataPackage × AnonymousClient) :=
  let writer := self.ws_writer ++ [ClientMessage.GetDataPackage { games := self.room_info.games }]
  match next decAnonymousServerMessage self.ws_reader with
  | (none, _) => .error .streamEnded
  | (some (.error e), _) => .error (.streamFailed e)
  | (some (.ok (.DataPackage dp)), st) =>
    .ok (dp, { self with ws_reader := st, ws_writer := writer })
  | (some (.ok m), _) => .error (.expectedDataPackage m)

/-- The `Connect` payload built inside `AnonymousClient::connect`
(`uuid::Uuid::new_v4()` is nondeterministic and passed explicitly). -/
def connectPayload (password : Option String) (game name uuid : String)
    (tags : List String) (items_handling : ItemsHandlingFlags) : Connect :=
  { password, game := game, name := name, uuid, version := SUPPORTED_VERSION,
    items_handling, tags, slot_data := true }

/-- Rust `AnonymousClient::connect`: send the `Connect` request, flush, await
exactly one reply and dispatch on it.  On success the room info and the
demultiplexer's residual queue move into the new `Client` via
`MessageStream::into_inner` / `MessageStream::new`. -/
def AnonymousClient.connect (self : AnonymousClient) (password : Option String)
    (game name uuid : String) (tags : List String)
    (items_handling : ItemsHandlingFlags) : Except ClientError Client :=
  let writer := self.ws_writer ++
    [ClientMessage.Connect (connectPayload password game name uuid tags items_handling)]
  match next decAnonymousServerMessage self.ws_reader with
  | (none, _) => .error .streamEnded
  | (some (.error e), _) => .error (.streamFailed e)
  | (some (.ok (.Connected connected)), st) =>
    let (ws, message_buffer) := MessageStream.into_inner st
    .ok { ws_reader := MessageStream.new ws message_buffer, ws_writer := writer,
          room_info := self.room_info, connected }
  | (some (.ok (.InvalidPacket invalid)), _) => .error (.gotInvalidPacket invalid)
  | (some (.ok (.ConnectionRefused refused)), _) => .error (.gotConnectionRefused refused)
  | (some (.ok m), _) => .error (.expectedConnected m)

/-- Rust `<Client as Stream>::poll_next` forwards to the reader's `poll_next`
with the full server family as decode target. -/
def Client.poll_next (self : Client) :
    Poll (Option (Except MessageStreamError ServerMessage)) × StreamState :=
  pollNext decServerMessage self.ws_reader

/-- A concrete `RoomInfo` value, used to evaluate the model on closed inputs. -/
def sampleRoomInfo : RoomInfo :=
  { version := ⟨0, 4, 5⟩, generator_version := ⟨0, 4, 5⟩, tags := ["WebHost"],
    password_required := false, permissions := [(.Release, .Auto)], hint_cost := 10,
    location_check_points := 1, games := ["Clique"],
    datapackage_versions := [("Clique", 1)], datapackage_checksums := [("Clique", "abc")],
    seed_name := "seed", time := 0.0 }

/-- A concrete `Connected` value, used to evaluate the model on closed inputs. -/
def sampleConnected : Connected :=
  { team := 0, slot := 1, players := [⟨0, 1, "p", "alice"⟩], missing_locations := [2],
    checked_locations := [3], slot_data := [("energy", .num 4)],
    slot_info := [("1", ⟨"alice", "Clique", .Player, []⟩)], hint_points := 5 }

/-- A concrete `ConnectionRefused` value. -/
def sampleRefused : ConnectionRefused := ⟨[.InvalidPassword]⟩

/-- A concrete `Set` client message whose operation payload is JSON `null`:
its serialization is the tag-only map, which deserializes back with the
empty object as payload, so the round trip does not preserve the field. -/
def cexSetMsg : ClientMessage :=
  .Set { key := "k", default := .null, want_reply := false, operations := [.Replace .null] }

/-! ## Lemmas about the demultiplexer -/

/-- Draining a residual queue of length `n` takes exactly `n` productions,
yields the decoded entries in order, and never touches the transport. -/
theorem pollProductions_drain {T : Type} (dec : Json → Except String T) :
    ∀ (l : List Json) (t : List TransportItem),
      pollProductions dec l.length ⟨t, l⟩ =
        (l.map fun m => .ready (some (decodeResult dec m)), ⟨t, []⟩) := by
  intro l
  induction l with
  | nil => intro t; rfl
  | cons m rest ih => intro t; simp [pollProductions, pollNext, ih]

/-- Productions compose: `m + n` productions are `m` productions followed
by `n` productions from the intermediate state. -/
theorem pollProductions_add {T : Type} (dec : Json → Except String T) :
    ∀ (m n : Nat) (st : StreamState),
      pollProductions dec (m + n) st =
        ((pollProductions dec m st).1 ++
            (pollProductions dec n (pollProductions dec m st).2).1,
          (pollProductions dec n (pollProductions dec m st).2).2) := by
  intro m
  induction m with
  | zero => intro n st; simp [pollProductions]
  | succ k ih =>
    intro n st
    have h1 : k + 1 + n = (k + n) + 1 := by omega
    rw [h1]
    simp only [pollProductions]
    rw [ih]
    rfl

/-! ## Round-trip lemmas for the serde model -/

@[simp] theorem exceptBind_ok {ε α β : Type} (a : α) (f : α → Except ε β) :
    (Except.ok a : Except ε α) >>= f = f a := rfl

@[simp] theorem exceptBind_error {ε α β : Type} (e : ε) (f : α → Except ε β) :
    (Except.error e : Except ε α) >>= f = (.error e : Except ε β) := rfl

@[simp] theorem exceptBindF_ok {ε α β : Type} (a : α) (f : α → Except ε β) :
    Except.bind (Except.ok a : Except ε α) f = f a := rfl

@[simp] theorem exceptBindF_error {ε α β : Type} (e : ε) (f : α → Except ε β) :
    Except.bind (Except.error e : Except ε α) f = (.error e : Except ε β) := rfl

@[simp] theorem exceptMap_ok {ε α β : Type} (f : α → β) (a : α) :
    Except.map f (Except.ok a : Except ε α) = .ok (f a) := rfl

@[simp] theorem exceptMap_error {ε α β : Type} (f : α → β) (e : ε) :
    Except.map f (Except.error e : Except ε α) = (.error e : Except ε β) := rfl

@[simp] theorem decStr_enc (s : String) : decStr (.str s) = .ok s := rfl

@[simp] theorem decInt_enc (n : Int) : decInt (.num n) = .ok n := rfl

@[simp] theorem decBool_enc (b : Bool) : decBool (.bool b) = .ok b := rfl

@[simp] theorem decFloat_enc (f : Float) : decFloat (.float f) = .ok f := rfl

@[simp] theorem decValue_enc (v : Json) : decValue v = .ok v := rfl

@[simp] theorem decU8_enc (v : Fin 256) : decU8 (encU8 v) = .ok v := by
  have hlt := v.isLt
  simp only [decU8, encU8]
  rw [dif_pos ⟨Int.ofNat_nonneg _, by exact_mod_cast hlt⟩]
  exact congrArg Except.ok (Fin.ext (by simp))

@[simp] theorem decNetworkItemFlags_enc (f : NetworkItemFlags) :
    decNetworkItemFlags (encNetworkItemFlags f) = .ok f := by
  simp [decNetworkItemFlags, encNetworkItemFlags, Except.map]

@[simp] theorem decItemsHandlingFlags_enc (f : ItemsHandlingFlags) :
    decItemsHandlingFlags (encItemsHandlingFlags f) = .ok f := by
  simp [decItemsHandlingFlags, encItemsHandlingFlags, Except.map]

@[simp] theorem decSlotType_enc (s : SlotType) : decSlotType (encSlotType s) = .ok s := by
  cases s <;> rfl

@[simp] theorem decPermission_enc (p : Permission) : decPermission (encPermission p) = .ok p := by
  cases p <;> rfl

@[simp] theorem decPermissionName_enc (p : PermissionName) :
    decPermissionName (encPermissionName p) = .ok p := by
  cases p <;> rfl

@[simp] theorem decConnectionRefusedError_enc (e : ConnectionRefusedError) :
    decConnectionRefusedError (encConnectionRefusedError e) = .ok e := by
  cases e <;> rfl

@[simp] theorem decPacketProblemType_enc (p : PacketProblemType) :
    decPacketProblemType (encPacketProblemType p) = .ok p := by
  cases p <;> rfl

@[simp] theorem decJSONColor_enc (c : JSONColor) : decJSONColor (encJSONColor c) = .ok c := by
  cases c <;> rfl

theorem decJsonList_roundtrip {α : Type} {dec : Json → Except String α} {enc : α → Json}
    (h : ∀ a, dec (enc a) = .ok a) (l : List α) :
    decJsonList dec (l.map enc) = .ok l := by
  induction l with
  | nil => rfl
  | cons a rest ih => simp [decJsonList, h, ih]

theorem decArr_roundtrip {α : Type} {dec : Json → Except String α} {enc : α → Json}
    (h : ∀ a, dec (enc a) = .ok a) (l : List α) :
    decArr dec (encArr enc l) = .ok l := by
  simp [decArr, encArr, decJsonList_roundtrip h]

theorem decPairList_roundtrip {α : Type} {dec : Json → Except String α} {enc : α → Json}
    (h : ∀ a, dec (enc a) = .ok a) (kvs : List (String × α)) :
    decPairList dec (kvs.map fun kv => (kv.1, enc kv.2)) = .ok kvs := by
  induction kvs with
  | nil => rfl
  | cons kv rest ih => simp [decPairList, h, ih]

theorem decStrMap_roundtrip {α : Type} {dec : Json → Except String α} {enc : α → Json}
    (h : ∀ a, dec (enc a) = .ok a) (kvs : List (String × α)) :
    decStrMap dec (encStrMap enc kvs) = .ok kvs := by
  simp [decStrMap, encStrMap, decPairList_roundtrip h]

theorem decKeyPairList_roundtrip {κ α : Type} {decK : String → Except String κ}
    {encK : κ → String} {decV : Json → Except String α} {encV : α → Json}
    (hK : ∀ k, decK (encK k) = .ok k) (hV : ∀ a, decV (encV a) = .ok a)
    (kvs : List (κ × α)) :
    decKeyPairList decK decV (kvs.map fun kv => (encK kv.1, encV kv.2)) = .ok kvs := by
  induction kvs with
  | nil => rfl
  | cons kv rest ih => simp [decKeyPairList, hK, hV, ih]

theorem decKeyMap_roundtrip {κ α : Type} {decK : String → Except String κ}
    {encK : κ → String} {decV : Json → Except String α} {encV : α → Json}
    (hK : ∀ k, decK (encK k) = .ok k) (hV : ∀ a, decV (encV a) = .ok a)
    (kvs : List (κ × α)) :
    decKeyMap decK decV (encKeyMap encK encV kvs) = .ok kvs := by
  simp [decKeyMap, encKeyMap, decKeyPairList_roundtrip hK hV]

@[simp] theorem decNetworkVersion_enc (v : NetworkVersion) :
    decNetworkVersion (encNetworkVersion v) = .ok v := by
  simp [decNetworkVersion, encNetworkVersion, decField, Json.getField, lookupField]

@[simp] theorem decNetworkPlayer_enc (p : NetworkPlayer) :
    decNetworkPlayer (encNetworkPlayer p) = .ok p := by
  simp [decNetworkPlayer, encNetworkPlayer, decField, Json.getField, lookupField]

@[simp] theorem decNetworkSlot_enc (s : NetworkSlot) :
    decNetworkSlot (encNetworkSlot s) = .ok s := by
  simp [decNetworkSlot, encNetworkSlot, decField, Json.getField, lookupField,
    decArr_roundtrip decInt_enc]

@[simp] theorem decNetworkItem_enc (i : NetworkItem) :
    decNetworkItem (encNetworkItem i) = .ok i := by
  simp [decNetworkItem, encNetworkItem, decField, Json.getField, lookupField]

@[simp] theorem decGameData_enc (g : GameData) : decGameData (encGameData g) = .ok g := by
  simp [decGameData, encGameData, decField, Json.getField, lookupField,
    decStrMap_roundtrip decInt_enc]

@[simp] theorem decDataPackageObject_enc (d : DataPackageObject) :
    decDataPackageObject (encDataPackageObject d) = .ok d := by
  simp [decDataPackageObject, encDataPackageObject, decField, Json.getField, lookupField,
    decStrMap_roundtrip decGameData_enc]

@[simp] theorem decJSONMessagePart_enc (p : JSONMessagePart) :
    decJSONMessagePart (encJSONMessagePart p) = .ok p := by
  cases p <;>
    simp [decJSONMessagePart, encJSONMessagePart, decField, Json.getField, lookupField]

theorem decStrMap_id_roundtrip (kvs : List (String × Json)) :
    decStrMap decValue (encStrMap id kvs) = .ok kvs :=
  @decStrMap_roundtrip Json decValue id (fun _ => rfl) kvs

/-! Each payload struct deserializes back from its serialization with the
`"cmd"` tag entry prepended, as the internally tagged families produce it. -/

theorem decRoomInfo_tagged (r : RoomInfo) :
    decRoomInfo (.obj (("cmd", Json.str "RoomInfo") :: encRoomInfoFields r)) = .ok r := by
  simp [decRoomInfo, encRoomInfoFields, decField, Json.getField, lookupField,
    decArr_roundtrip decStr_enc,
    decKeyMap_roundtrip decPermissionName_enc decPermission_enc,
    decStrMap_roundtrip decInt_enc, decStrMap_roundtrip decStr_enc]

theorem decConnectionRefused_tagged (c : ConnectionRefused) :
    decConnectionRefused
      (.obj (("cmd", Json.str "ConnectionRefused") :: encConnectionRefusedFields c)) = .ok c := by
  simp [decConnectionRefused, encConnectionRefusedFields, decField, Json.getField, lookupField,
    decArr_roundtrip decConnectionRefusedError_enc]

theorem decConnected_tagged (c : Connected) :
    decConnected (.obj (("cmd", Json.str "Connected") :: encConnectedFields c)) = .ok c := by
  simp [decConnected, encConnectedFields, decField, Json.getField, lookupField,
    decArr_roundtrip decNetworkPlayer_enc, decArr_roundtrip decInt_enc,
    decStrMap_id_roundtrip, decStrMap_roundtrip decNetworkSlot_enc]

theorem decDataPackage_tagged (d : DataPackage) :
    decDataPackage (.obj (("cmd", Json.str "DataPackage") :: encDataPackageFields d)) = .ok d := by
  simp [decDataPackage, encDataPackageFields, decField, Json.getField, lookupField]

theorem decReceivedItems_tagged (r : ReceivedItems) :
    decReceivedItems (.obj (("cmd", Json.str "ReceivedItems") :: encReceivedItemsFields r)) =
      .ok r := by
  simp [decReceivedItems, encReceivedItemsFields, decField, Json.getField, lookupField,
    decArr_roundtrip decNetworkItem_enc]

theorem decLocationInfo_tagged (l : LocationInfo) :
    decLocationInfo (.obj (("cmd", Json.str "LocationInfo") :: encLocationInfoFields l)) =
      .ok l := by
  simp [decLocationInfo, encLocationInfoFields, decField, Json.getField, lookupField,
    decArr_roundtrip decNetworkItem_enc]

theorem decRoomUpdate_tagged (r : RoomUpdate) :
    decRoomUpdate (.obj (("cmd", Json.str "RoomUpdate") :: encRoomUpdateFields r)) = .ok r := rfl

theorem decPrintJSON_tagged (p : PrintJSON) :
    decPrintJSON (.obj (("cmd", Json.str "PrintJSON") :: encPrintJSONFields p)) = .ok p := by
  cases p <;>
    simp [decPrintJSON, encPrintJSONFields, decField, Json.getField, lookupField,
      decArr_roundtrip decJSONMessagePart_enc, decArr_roundtrip decStr_enc]

theorem decBounced_tagged (b : Bounced) :
    decBounced (.obj (("cmd", Json.str "Bounced") :: encBouncedFields b)) = .ok b := by
  simp [decBounced, encBouncedFields, decDefaultField, Json.getField, lookupField,
    decArr_roundtrip decStr_enc, decArr_roundtrip decInt_enc]

theorem decInvalidPacket_tagged (i : InvalidPacket) :
    decInvalidPacket (.obj (("cmd", Json.str "InvalidPacket") :: encInvalidPacketFields i)) =
      .ok i := by
  rcases i with ⟨t, oc, tx⟩
  cases oc <;>
    simp [decInvalidPacket, encInvalidPacketFields, decField, decOptField,
      Json.getField, lookupField]

theorem decRetrieved_tagged (r : Retrieved) :
    decRetrieved (.obj (("cmd", Json.str "Retrieved") :: encRetrievedFields r)) = .ok r := by
  simp [decRetrieved, encRetrievedFields, decField, Json.getField, lookupField,
    decStrMap_id_roundtrip]

theorem decSetReply_tagged (s : SetReply) :
    decSetReply (.obj (("cmd", Json.str "SetReply") :: encSetReplyFields s)) = .ok s := by
  simp [decSetReply, encSetReplyFields, decField, Json.getField, lookupField]

/-- Deserializing the serialization of any full-family server message gives
back exactly that message. -/
theorem decServerMessage_roundtrip (m : ServerMessage) :
    decServerMessage (encServerMessage m) = .ok m := by
  cases m with
  | ReceivedItems r =>
    simp [encServerMessage, decServerMessage, Json.getField, lookupField,
      decReceivedItems_tagged]
  | LocationInfo l =>
    simp [encServerMessage, decServerMessage, Json.getField, lookupField,
      decLocationInfo_tagged]
  | RoomUpdate r =>
    simp [encServerMessage, decServerMessage, Json.getField, lookupField,
      decRoomUpdate_tagged]
  | PrintJSON p =>
    simp [encServerMessage, decServerMessage, Json.getField, lookupField,
      decPrintJSON_tagged]
  | Bounced b =>
    simp [encServerMessage, decServerMessage, Json.getField, lookupField,
      decBounced_tagged]
  | Retrieved r =>
    simp [encServerMessage, decServerMessage, Json.getField, lookupField,
      decRetrieved_tagged]
  | SetReply s =>
    simp [encServerMessage, decServerMessage, Json.getField, lookupField,
      decSetReply_tagged]
  | InvalidPacket i =>
    simp [encServerMessage, decServerMessage, Json.getField, lookupField,
      decInvalidPacket_tagged]

/-- Deserializing the serialization of any pre-authentication server
message gives back exactly that message. -/
theorem decAnonymousServerMessage_roundtrip (m : AnonymousServerMessage) :
    decAnonymousServerMessage (encAnonymousServerMessage m) = .ok m := by
  cases m with
  | RoomInfo r =>
    simp [encAnonymousServerMessage, decAnonymousServerMessage, Json.getField, lookupField,
      decRoomInfo_tagged]
  | ConnectionRefused c =>
    simp [encAnonymousServerMessage, decAnonymousServerMessage, Json.getField, lookupField,
      decConnectionRefused_tagged]
  | Connected c =>
    simp [encAnonymousServerMessage, decAnonymousServerMessage, Json.getField, lookupField,
      decConnected_tagged]
  | DataPackage d =>
    simp [encAnonymousServerMessage, decAnonymousServerMessage, Json.getField, lookupField,
      decDataPackage_tagged]
  | InvalidPacket i =>
    simp [encAnonymousServerMessage, decAnonymousServerMessage, Json.getField, lookupField,
      decInvalidPacket_tagged]

@[simp] theorem decClientStatus_enc (s : ClientStatus) :
    decClientStatus (encClientStatus s) = .ok s := by
  cases s <;> rfl

/-- A data-storage operation whose payload is a JSON object (or which is a
unit variant) serializes successfully and deserializes back to itself. -/
theorem decDataStorageOperation_roundtrip (op : DataStorageOperation)
    (h : op.valueIsObj = true) :
    (encDataStorageOperation op).bind decDataStorageOperation = .ok op := by
  cases op <;> first
    | rfl
    | (rename_i v
       cases v <;> simp_all [DataStorageOperation.valueIsObj, Json.isObj,
         encDataStorageOperation, encTaggedValue, decDataStorageOperation,
         lookupField, removeFirstField])

/-- An operations list with object payloads serializes to an array that
deserializes back to the same list. -/
theorem encDecOperations (ops : List DataStorageOperation)
    (h : ops.all DataStorageOperation.valueIsObj = true) :
    ∃ js, encExceptList encDataStorageOperation ops = .ok js ∧
      decJsonList decDataStorageOperation js = .ok ops := by
  induction ops with
  | nil => exact ⟨[], rfl, rfl⟩
  | cons op rest ih =>
    rw [List.all_cons, Bool.and_eq_true] at h
    obtain ⟨js, h1, h2⟩ := ih h.2
    have hop := decDataStorageOperation_roundtrip op h.1
    cases hc : encDataStorageOperation op with
    | error e => rw [hc] at hop; simp at hop
    | ok j =>
      rw [hc] at hop
      simp only [exceptBindF_ok] at hop
      exact ⟨j :: js, by simp [encExceptList, hc, h1], by simp [decJsonList, hop, h2]⟩

/-- Every client→server message whose data-storage-operation payloads are
JSON objects serializes successfully and deserializes back to itself. -/
theorem decClientMessage_roundtrip (m : ClientMessage) (h : wfClientMessage m = true) :
    (encClientMessage m).bind decClientMessage = .ok m := by
  cases m with
  | Connect c =>
    rcases c with ⟨pw, game, name, uuid, ver, ihf, tags, sd⟩
    cases pw <;>
      simp [encClientMessage, decClientMessage, encConnectFields, decConnect,
        lookupField, decOptField, decField, Json.getField, decArr_roundtrip decStr_enc]
  | Sync u => cases u; rfl
  | LocationChecks l =>
    simp [encClientMessage, decClientMessage, encLocationChecksFields, decLocationChecks,
      lookupField, decField, Json.getField, decArr_roundtrip decInt_enc]
  | LocationScouts l =>
    simp [encClientMessage, decClientMessage, encLocationScoutsFields, decLocationScouts,
      lookupField, decField, Json.getField, decArr_roundtrip decInt_enc]
  | StatusUpdate s =>
    simp [encClientMessage, decClientMessage, encStatusUpdateFields, decStatusUpdate,
      lookupField, decField, Json.getField]
  | Say s =>
    simp [encClientMessage, decClientMessage, encSayFields, decSay,
      lookupField, decField, Json.getField]
  | GetDataPackage g =>
    simp [encClientMessage, decClientMessage, encGetDataPackageFields, decGetDataPackage,
      lookupField, decField, Json.getField, decArr_roundtrip decStr_enc]
  | Bounce b =>
    simp [encClientMessage, decClientMessage, encBounceFields, decBounce,
      lookupField, decField, Json.getField, decArr_roundtrip decStr_enc,
      decArr_roundtrip decInt_enc]
  | Get g =>
    simp [encClientMessage, decClientMessage, encGetFields, decGet,
      lookupField, decField, Json.getField, decArr_roundtrip decStr_enc]
  | Set s =>
    rcases s with ⟨key, dflt, wr, ops⟩
    simp only [wfClientMessage] at h
    obtain ⟨js, h1, h2⟩ := encDecOperations ops h
    simp [encClientMessage, h1, decClientMessage, lookupField, decSetMsg,
      decField, Json.getField, decArr, h2]
  | SetNotify s =>
    simp [encClientMessage, decClientMessage, encSetNotifyFields, decSetNotify,
      lookupField, decField, Json.getField, decArr_roundtrip decStr_enc]

/-! ## The claims -/

/-- C1: for every transport text frame whose JSON array contains `N ≥ 1`
elements, `N` consecutive productions of the demultiplexer yield exactly
those `N` elements decoded, in the order they appeared in the frame, and
consume exactly that one transport item (so the transport is not polled
again in between); and for two consecutive frames the productions yield
the concatenation in order — messages are yielded in the exact order
received across frames. -/
theorem claim_C1_frame_order {T : Type} (dec : Json → Except String T)
    (e1 : Json) (more1 : List Json) (e2 : Json) (more2 : List Json)
    (rest : List TransportItem) :
    pollProductions dec (e1 :: more1).length
        ⟨.ok (.text (.arr (e1 :: more1))) :: rest, []⟩ =
      ((e1 :: more1).map fun m => .ready (some (decodeResult dec m)), ⟨rest, []⟩) ∧
    pollProductions dec ((e1 :: more1).length + (e2 :: more2).length)
        ⟨.ok (.text (.arr (e1 :: more1))) :: .ok (.text (.arr (e2 :: more2))) :: rest, []⟩ =
      (((e1 :: more1) ++ (e2 :: more2)).map fun m => .ready (some (decodeResult dec m)),
        ⟨rest, []⟩) := by
  have frame : ∀ (e : Json) (more : List Json) (t : List TransportItem),
      pollProductions dec (more.length + 1) ⟨.ok (.text (.arr (e :: more))) :: t, []⟩ =
        (.ready (some (decodeResult dec e)) ::
          (more.map fun m => .ready (some (decodeResult dec m))), ⟨t, []⟩) := by
    intro e more t
    simp [pollProductions, pollNext, parseArray, pollProductions_drain]
  constructor
  · simpa using frame e1 more1 rest
  · simp only [List.length_cons, List.map_cons, List.map_append, List.cons_append]
    rw [pollProductions_add, frame e1 more1 (.ok (.text (.arr (e2 :: more2))) :: rest)]
    simp [frame e2 more2 rest]

/-- C2: a production on a non-empty residual queue pops the front element,
decodes it, and yields the result immediately (ready, transport untouched,
queue advanced past the element); a failing element is consumed and its
`ParseError` reported, a succeeding one yields `Ok`. -/
theorem claim_C2_residual_queue_first {T : Type} (dec : Json → Except String T)
    (m : Json) (rest : List Json) (t : List TransportItem) :
    pollNext dec ⟨t, m :: rest⟩ = (.ready (some (decodeResult dec m)), ⟨t, rest⟩) ∧
    (∀ e, dec m = .error e → decodeResult dec m = .error (.ParseError e)) ∧
    (∀ a, dec m = .ok a → decodeResult dec m = .ok a) := by
  refine ⟨rfl, ?_, ?_⟩ <;> intro x h <;> simp [decodeResult, h]

/-- Witness for C2: a queued element that fails to decode as an integer is
popped, reported as a `ParseError`, and the next element stays queued. -/
theorem claim_C2_witness :
    pollNext decInt ⟨[], [Json.str "x", Json.num 3]⟩ =
      (.ready (some (.error (.ParseError "expected an integer"))), ⟨[], [Json.num 3]⟩) ∧
    decodeResult decInt (Json.str "x") = .error (.ParseError "expected an integer") := by
  have h := claim_C2_residual_queue_first decInt (Json.str "x") [Json.num 3] []
  exact ⟨by rw [h.1, h.2.1 "expected an integer" rfl], h.2.1 "expected an integer" rfl⟩

/-- C6: `has_local_items` and `receive_starting_inventory` read as `false`
whenever `can_receive_items` is `false`, for every `ItemsHandlingFlags`
value (in particular for all 8 combinations of the three bits). -/
theorem claim_C6_flag_dependency (f : ItemsHandlingFlags)
    (h : f.can_receive_items = false) :
    f.has_local_items = false ∧ f.receive_starting_inventory = false := by
  constructor <;>
    simp [ItemsHandlingFlags.has_local_items,
      ItemsHandlingFlags.receive_starting_inventory, h]

/-- Witness for C6: the value with the `HAS_LOCAL_ITEMS` and
`REQUEST_STARTING_INVENTORY` bits set but `CAN_RECEIVE_ITEMS` clear. -/
theorem claim_C6_witness :
    (⟨6⟩ : ItemsHandlingFlags).can_receive_items = false ∧
    (⟨6⟩ : ItemsHandlingFlags).has_local_items = false ∧
    (⟨6⟩ : ItemsHandlingFlags).receive_starting_inventory = false :=
  ⟨by decide, (claim_C6_flag_dependency ⟨6⟩ (by decide)).1,
    (claim_C6_flag_dependency ⟨6⟩ (by decide)).2⟩

/-- C7: on an empty residual queue, a `Ping` or `Pong` frame yields neither
a message nor an error nor end-of-sequence (the poll is pending); a `Close`
frame yields a clean end-of-sequence, never an error; a `Binary` frame and
a raw `Frame` yield `UnexpectedMessageType` naming the frame kind. -/
theorem claim_C7_control_frames {T : Type} (dec : Json → Except String T)
    (rest : List TransportItem) (pingData pongData binData : List Nat)
    (reason : Option String) :
    pollNext dec ⟨.ok (.ping pingData) :: rest, []⟩ = (.pending, ⟨rest, []⟩) ∧
    pollNext dec ⟨.ok (.pong pongData) :: rest, []⟩ = (.pending, ⟨rest, []⟩) ∧
    pollNext dec ⟨.ok (.close reason) :: rest, []⟩ = (.ready none, ⟨rest, []⟩) ∧
    pollNext dec ⟨.ok (.binary binData) :: rest, []⟩ =
      (.ready (some (.error (.UnexpectedMessageType "binary"))), ⟨rest, []⟩) ∧
    pollNext dec ⟨.ok .frame :: rest, []⟩ =
      (.ready (some (.error (.UnexpectedMessageType "frame"))), ⟨rest, []⟩) :=
  ⟨rfl, rfl, rfl, rfl, rfl⟩

/-- C8: a text frame parsing to an empty JSON array yields nothing for this
production (pending: no message, no error, no end-of-sequence), leaves the
residual queue unchanged (empty), and moves on to await the next frame. -/
theorem claim_C8_empty_array {T : Type} (dec : Json → Except String T)
    (rest : List TransportItem) :
    pollNext dec ⟨.ok (.text (.arr [])) :: rest, []⟩ = (.pending, ⟨rest, []⟩) := rfl

/-- C3: session construction succeeds exactly when the first production of
the demultiplexer (over the pre-authentication family) is the `RoomInfo`
announcement, which is stored in the session; any other message, a stream
error, or end-of-stream makes construction fail with no session. -/
theorem claim_C3_construction (transport : List TransportItem) :
    (∀ ri st,
      next decAnonymousServerMessage (MessageStream.new transport []) =
          (some (.ok (.RoomInfo ri)), st) →
        AnonymousClient.new transport =
          .ok { ws_reader := st, ws_writer := [], room_info := ri }) ∧
    (∀ m st,
      next decAnonymousServerMessage (MessageStream.new transport []) =
          (some (.ok m), st) →
        (∀ ri, m ≠ .RoomInfo ri) →
        AnonymousClient.new transport = .error (.expectedRoomInfo m)) ∧
    (∀ e st,
      next decAnonymousServerMessage (MessageStream.new transport []) =
          (some (.error e), st) →
        AnonymousClient.new transport = .error (.streamFailed e)) ∧
    (∀ st,
      next decAnonymousServerMessage (MessageStream.new transport []) = (none, st) →
        AnonymousClient.new transport = .error .streamEnded) := by
  refine ⟨?_, ?_, ?_, ?_⟩
  · intro ri st h
    simp [AnonymousClient.new, h]
  · intro m st h h2
    cases m with
    | RoomInfo ri => exact absurd rfl (h2 ri)
    | ConnectionRefused c => simp [AnonymousClient.new, h]
    | Connected c => simp [AnonymousClient.new, h]
    | DataPackage d => simp [AnonymousClient.new, h]
    | InvalidPacket i => simp [AnonymousClient.new, h]
  · intro e st h
    simp [AnonymousClient.new, h]
  · intro st h
    simp [AnonymousClient.new, h]

/-- Witness for C3: a frame carrying an encoded `RoomInfo` constructs the
session and stores that room info; a frame carrying `Connected` instead
(the wrong first message) fails construction. -/
theorem claim_C3_witness :
    AnonymousClient.new
        [.ok (.text (.arr [encAnonymousServerMessage (.RoomInfo sampleRoomInfo)]))] =
      .ok { ws_reader := ⟨[], []⟩, ws_writer := [], room_info := sampleRoomInfo } ∧
    AnonymousClient.new
        [.ok (.text (.arr [encAnonymousServerMessage (.Connected sampleConnected)]))] =
      .error (.expectedRoomInfo (.Connected sampleConnected)) :=
  ⟨(claim_C3_construction _).1 sampleRoomInfo ⟨[], []⟩ (by rfl),
   (claim_C3_construction _).2.1 (.Connected sampleConnected) ⟨[], []⟩ (by rfl)
     (fun _ h => AnonymousServerMessage.noConfusion h)⟩

/-- C4: `connect` sends the `Connect` request (appended to the sink) and
awaits exactly one reply, dispatching on it: `Connected` yields the
authenticated session; `ConnectionRefused` fails carrying the server's
refusal reasons; `InvalidPacket` fails carrying the problem report; any
other reply fails surfacing it; a stream error fails with it; and
end-of-stream is a fatal failure. -/
theorem claim_C4_connect_dispatch (self : AnonymousClient) (password : Option String)
    (game name uuid : String) (tags : List String) (ihf : ItemsHandlingFlags) :
    (∀ c st,
      next decAnonymousServerMessage self.ws_reader = (some (.ok (.Connected c)), st) →
        self.connect password game name uuid tags ihf =
          .ok { ws_reader := MessageStream.new st.inner st.message_buffer,
                ws_writer := self.ws_writer ++
                  [ClientMessage.Connect (connectPayload password game name uuid tags ihf)],
                room_info := self.room_info, connected := c }) ∧
    (∀ r st,
      next decAnonymousServerMessage self.ws_reader =
          (some (.ok (.ConnectionRefused r)), st) →
        self.connect password game name uuid tags ihf =
          .error (.gotConnectionRefused r)) ∧
    (∀ i st,
      next decAnonymousServerMessage self.ws_reader =
          (some (.ok (.InvalidPacket i)), st) →
        self.connect password game name uuid tags ihf = .error (.gotInvalidPacket i)) ∧
    (∀ m st,
      next decAnonymousServerMessage self.ws_reader = (some (.ok m), st) →
        (∀ c, m ≠ .Connected c) → (∀ r, m ≠ .ConnectionRefused r) →
        (∀ i, m ≠ .InvalidPacket i) →
        self.connect password game name uuid tags ihf = .error (.expectedConnected m)) ∧
    (∀ e st,
      next decAnonymousServerMessage self.ws_reader = (some (.error e), st) →
        self.connect password game name uuid tags ihf = .error (.streamFailed e)) ∧
    (∀ st,
      next decAnonymousServerMessage self.ws_reader = (none, st) →
        self.connect password game name uuid tags ihf = .error .streamEnded) := by
  refine ⟨?_, ?_, ?_, ?_, ?_, ?_⟩
  · intro c st h
    simp [AnonymousClient.connect, h, MessageStream.into_inner, MessageStream.new]
  · intro r st h
    simp [AnonymousClient.connect, h]
  · intro i st h
    simp [AnonymousClient.connect, h]
  · intro m st h h1 h2 h3
    cases m with
    | RoomInfo ri => simp [AnonymousClient.connect, h]
    | ConnectionRefused r => exact absurd rfl (h2 r)
    | Connected c => exact absurd rfl (h1 c)
    | DataPackage d => simp [AnonymousClient.connect, h]
    | InvalidPacket i => exact absurd rfl (h3 i)
  · intro e st h
    simp [AnonymousClient.connect, h]
  · intro st h
    simp [AnonymousClient.connect, h]

/-- Witness for C4: a `ConnectionRefused` reply carrying `InvalidPassword`
makes `connect` fail with exactly those refusal reasons. -/
theorem claim_C4_witness :
    AnonymousClient.connect
        ⟨⟨[.ok (.text (.arr [encAnonymousServerMessage (.ConnectionRefused sampleRefused)]))],
          []⟩, [], sampleRoomInfo⟩
        none "Clique" "alice" "uuid-0" [] ⟨7⟩ =
      .error (.gotConnectionRefused sampleRefused) :=
  (claim_C4_connect_dispatch _ none "Clique" "alice" "uuid-0" [] ⟨7⟩).2.1
    sampleRefused ⟨[], []⟩ (by rfl)

/-- C5: on a successful authentication the new `Client` holds exactly the
`RoomInfo` of the consumed handshake session and exactly the residual
queue of its demultiplexer, in the same order, with the transport position
carried over unchanged. -/
theorem claim_C5_state_transfer (self : AnonymousClient) (password : Option String)
    (game name uuid : String) (tags : List String) (ihf : ItemsHandlingFlags)
    (c : Connected) (st : StreamState)
    (h : next decAnonymousServerMessage self.ws_reader = (some (.ok (.Connected c)), st)) :
    ∃ client,
      self.connect password game name uuid tags ihf = .ok client ∧
      client.room_info = self.room_info ∧
      client.connected = c ∧
      client.ws_reader.message_buffer = st.message_buffer ∧
      client.ws_reader.inner = st.inner := by
  refine ⟨{ ws_reader := MessageStream.new st.inner st.message_buffer,
            ws_writer := self.ws_writer ++
              [ClientMessage.Connect (connectPayload password game name uuid tags ihf)],
            room_info := self.room_info, connected := c }, ?_, rfl, rfl, rfl, rfl⟩
  simp [AnonymousClient.connect, h, MessageStream.into_inner, MessageStream.new]

/-- Witness for C5: a frame carrying `Connected` plus one extra buffered
payload; after `connect` the extra payload is still queued, in order, and
the room info moved over. -/
theorem claim_C5_witness :
    ∃ client,
      AnonymousClient.connect
          ⟨⟨[.ok (.text (.arr [encAnonymousServerMessage (.Connected sampleConnected),
              Json.obj [("cmd", Json.str "RoomInfo")]]))], []⟩, [], sampleRoomInfo⟩
          none "Clique" "alice" "uuid-1" [] ⟨7⟩ = .ok client ∧
      client.room_info = sampleRoomInfo ∧
      client.connected = sampleConnected ∧
      client.ws_reader.message_buffer = [Json.obj [("cmd", Json.str "RoomInfo")]] ∧
      client.ws_reader.inner = [] :=
  claim_C5_state_transfer _ none "Clique" "alice" "uuid-1" [] ⟨7⟩ sampleConnected
    ⟨[], [Json.obj [("cmd", Json.str "RoomInfo")]]⟩ (by rfl)

/-- A JSON value whose `cmd` discriminator exists only in the
pre-authentication family fails to decode as a full-family `ServerMessage`. -/
theorem decServerMessage_anonOnly (v : Json) (tag : String)
    (h : v.getField "cmd" = some (.str tag))
    (htag : tag = "RoomInfo" ∨ tag = "Connected" ∨ tag = "ConnectionRefused" ∨
      tag = "DataPackage") :
    decServerMessage v = .error ("unknown ServerMessage variant " ++ tag) := by
  rcases htag with h1 | h1 | h1 | h1 <;> subst h1 <;> simp [decServerMessage, h]

/-- C10: after a successful `connect`, payloads left in the residual queue
are decoded against the full server family; a buffered payload whose
discriminator exists only in the pre-authentication family (`RoomInfo`,
`Connected`, `ConnectionRefused`, `DataPackage`) makes the corresponding
production of the authenticated session yield a `ParseError`, not a typed
message. -/
theorem claim_C10_stale_residual (self : AnonymousClient) (password : Option String)
    (game name uuid : String) (tags : List String) (ihf : ItemsHandlingFlags)
    (c : Connected) (st : StreamState) (v : Json) (rest : List Json) (tag : String)
    (h : next decAnonymousServerMessage self.ws_reader = (some (.ok (.Connected c)), st))
    (hbuf : st.message_buffer = v :: rest)
    (hcmd : v.getField "cmd" = some (.str tag))
    (htag : tag = "RoomInfo" ∨ tag = "Connected" ∨ tag = "ConnectionRefused" ∨
      tag = "DataPackage") :
    ∃ client,
      self.connect password game name uuid tags ihf = .ok client ∧
      pollNext decServerMessage client.ws_reader =
        (.ready (some (.error (.ParseError ("unknown ServerMessage variant " ++ tag)))),
          ⟨st.inner, rest⟩) := by
  refine ⟨{ ws_reader := MessageStream.new st.inner st.message_buffer,
            ws_writer := self.ws_writer ++
              [ClientMessage.Connect (connectPayload password game name uuid tags ihf)],
            room_info := self.room_info, connected := c }, ?_, ?_⟩
  · simp [AnonymousClient.connect, h, MessageStream.into_inner, MessageStream.new]
  · simp [MessageStream.new, hbuf, pollNext, decodeResult,
      decServerMessage_anonOnly v tag hcmd htag]

/-- Witness for C10: the stale buffered payload `{"cmd": "RoomInfo"}` left
over from the handshake yields a `ParseError` on the first production of
the authenticated session. -/
theorem claim_C10_witness :
    ∃ client,
      AnonymousClient.connect
          ⟨⟨[.ok (.text (.arr [encAnonymousServerMessage (.Connected sampleConnected),
              Json.obj [("cmd", Json.str "DataPackage")]]))], []⟩, [], sampleRoomInfo⟩
          none "Clique" "bob" "uuid-2" [] ⟨7⟩ = .ok client ∧
      pollNext decServerMessage client.ws_reader =
        (.ready (some (.error
            (.ParseError ("unknown ServerMessage variant " ++ "DataPackage")))),
          ⟨[], []⟩) :=
  claim_C10_stale_residual _ none "Clique" "bob" "uuid-2" [] ⟨7⟩ sampleConnected
    ⟨[], [Json.obj [("cmd", Json.str "DataPackage")]]⟩
    (Json.obj [("cmd", Json.str "DataPackage")]) [] "DataPackage"
    (by rfl) rfl rfl (Or.inr (Or.inr (Or.inr rfl)))

end Archipelago
